import Mathlib

/-!
Verification development for the `cesium-transform-controls` repository, a
pointer-driven translate/rotate/scale manipulator ("gizmo") for a Cesium scene.

The development is a shallow embedding of the interaction state machine in
`src/GizmoComponentPrimitive.ts`, the mount/sync/resolve operations in
`src/Gizmo.ts`, and the screen-size scaler in `src/minPixelSizeScaler.ts`.

Modelling conventions:

* Scalars are modelled twice.  Exact-arithmetic claims use `ℚ`.  Claims about
  the code's `Number.isNaN` guards use `JsNum`, a rational extended with an
  absorbing `nan` element mirroring IEEE NaN propagation for the operations
  the embedded code performs.  (`JsNum` conflates division by zero with NaN;
  no theorem below depends on a division by zero.)
* Cesium matrices are column-major flat arrays; `Matrix4` here has fields
  `m0` … `m15` with exactly Cesium's layout, so `matrix[12]` in the source is
  `m.m12` here.  `Matrix3` likewise has `m0` … `m8`.
* External collaborators that the spec declares out of scope (the Cesium
  engine: screen projection `SceneTransforms.worldToWindowCoordinates`,
  `Math.sqrt`, `camera.getPixelSize`, `Transforms.eastNorthUpToFixedFrame`,
  `Cartographic.fromCartesian` / `toCartesian`, `scene.pick`) are passed in as
  an explicit environment record, and theorems quantify over them.
* The rotate-mode branch of the pointer-move handler (pure trigonometric
  composition, not referenced by any claim) is passed in as an explicit
  function parameter `rotateStep`; every theorem that touches the handler
  quantifies over it, so the results hold for the actual rotate code as well.
* Cesium's `Matrix4.inverse` throws on a near-singular matrix; the embedded
  `inverse4` is total (division by a zero determinant yields junk entries of
  the scalar type).  All theorems and witnesses use invertible matrices.
-/

set_option allowUnsafeReducibility true

set_option maxRecDepth 4000

attribute [local semireducible] Rat.add Rat.mul Rat.sub Rat.inv Rat.ofScientific

namespace CTC

/-- Numbers as JavaScript produces them in the guarded paths: either a finite
rational or NaN.  NaN is absorbing for the arithmetic the embedded code
performs, mirroring IEEE semantics. -/
inductive JsNum where
  | num (q : ℚ)
  | nan
deriving DecidableEq, Repr

namespace JsNum

/-- Addition with NaN propagation. -/
def jadd : JsNum → JsNum → JsNum
  | num a, num b => num (a + b)
  | _, _ => nan

/-- Subtraction with NaN propagation. -/
def jsub : JsNum → JsNum → JsNum
  | num a, num b => num (a - b)
  | _, _ => nan

/-- Multiplication with NaN propagation (in JavaScript `0 * NaN` is NaN). -/
def jmul : JsNum → JsNum → JsNum
  | num a, num b => num (a * b)
  | _, _ => nan

/-- Division with NaN propagation.  Division by zero is conflated with NaN
(JavaScript produces ±Infinity for a nonzero numerator; no claim below
exercises that case). -/
def jdiv : JsNum → JsNum → JsNum
  | num a, num b => if b = 0 then nan else num (a / b)
  | _, _ => nan

/-- Negation with NaN propagation. -/
def jneg : JsNum → JsNum
  | num a => num (-a)
  | nan => nan

instance : Add JsNum := ⟨jadd⟩

instance : Sub JsNum := ⟨jsub⟩

instance : Mul JsNum := ⟨jmul⟩

instance : Div JsNum := ⟨jdiv⟩

instance : Neg JsNum := ⟨jneg⟩

instance : Zero JsNum := ⟨num 0⟩

instance : One JsNum := ⟨num 1⟩

instance : NatCast JsNum := ⟨fun n => num n⟩

/-- JavaScript `Number.isNaN`. -/
def jsIsNaN : JsNum → Bool
  | num _ => false
  | nan => true

/-- JavaScript `===` on numbers: NaN compares unequal to everything,
including itself. -/
def jsStrictEq : JsNum → JsNum → Bool
  | num a, num b => decide (a = b)
  | _, _ => false

/-- JavaScript `>=` on numbers: any comparison involving NaN is false. -/
def jsGeNum : JsNum → JsNum → Bool
  | num a, num b => decide (b ≤ a)
  | _, _ => false

/-- JavaScript `Math.abs` with NaN propagation. -/
def jsAbsNum : JsNum → JsNum
  | num a => num |a|
  | nan => nan

end JsNum

/-- The scalar-specific primitives the embedded code needs beyond ring
operations: the `Number.isNaN` test, strict equality, `>=`, and `Math.abs`.
`opsQ` instantiates them for exact rationals, `opsJ` for `JsNum`. -/
structure NumOps (α : Type) where
  isNaN : α → Bool
  jsEq : α → α → Bool
  jsGe : α → α → Bool
  jsAbs : α → α

/-- Rational instantiation: no NaN, exact comparisons. -/
def opsQ : NumOps ℚ where
  isNaN := fun _ => false
  jsEq := fun a b => decide (a = b)
  jsGe := fun a b => decide (b ≤ a)
  jsAbs := fun a => |a|

/-- JavaScript-number instantiation with NaN semantics. -/
def opsJ : NumOps JsNum where
  isNaN := JsNum.jsIsNaN
  jsEq := JsNum.jsStrictEq
  jsGe := JsNum.jsGeNum
  jsAbs := JsNum.jsAbsNum

variable {α : Type}

/-- Cesium `Cartesian2`. -/
structure Cartesian2 (α : Type) where
  x : α
  y : α
deriving DecidableEq, Repr

/-- Cesium `Cartesian3`. -/
structure Cartesian3 (α : Type) where
  x : α
  y : α
  z : α
deriving DecidableEq, Repr

/-- Cesium `Cartographic` (longitude, latitude, height). -/
structure Cartographic (α : Type) where
  longitude : α
  latitude : α
  height : α
deriving DecidableEq, Repr

/-- Cesium `Matrix3`, column-major flat fields exactly as Cesium stores them:
`m0 m1 m2` is column 0, `m3 m4 m5` column 1, `m6 m7 m8` column 2. -/
structure Matrix3 (α : Type) where
  m0 : α
  m1 : α
  m2 : α
  m3 : α
  m4 : α
  m5 : α
  m6 : α
  m7 : α
  m8 : α
deriving DecidableEq, Repr

/-- Cesium `Matrix4`, column-major flat fields exactly as Cesium stores them:
`m12 m13 m14` are the translation components. -/
structure Matrix4 (α : Type) where
  m0 : α
  m1 : α
  m2 : α
  m3 : α
  m4 : α
  m5 : α
  m6 : α
  m7 : α
  m8 : α
  m9 : α
  m10 : α
  m11 : α
  m12 : α
  m13 : α
  m14 : α
  m15 : α
deriving DecidableEq, Repr

section VectorOps

variable [Add α] [Sub α] [Mul α] [Div α] [Neg α] [Zero α] [One α]

/-- `Cartesian3.ZERO` / `new Cartesian3()`. -/
def zero3 : Cartesian3 α := ⟨0, 0, 0⟩

/-- `Cartesian3.UNIT_X`. -/
def unitX : Cartesian3 α := ⟨1, 0, 0⟩

/-- `Cartesian3.UNIT_Y`. -/
def unitY : Cartesian3 α := ⟨0, 1, 0⟩

/-- `Cartesian3.UNIT_Z`. -/
def unitZ : Cartesian3 α := ⟨0, 0, 1⟩

/-- `new Cartesian2()`. -/
def zero2 : Cartesian2 α := ⟨0, 0⟩

/-- `Cartesian3.add`. -/
def add3 (a b : Cartesian3 α) : Cartesian3 α := ⟨a.x + b.x, a.y + b.y, a.z + b.z⟩

/-- `Cartesian3.subtract`. -/
def sub3 (a b : Cartesian3 α) : Cartesian3 α := ⟨a.x - b.x, a.y - b.y, a.z - b.z⟩

/-- `Cartesian3.multiplyByScalar`. -/
def scale3 (v : Cartesian3 α) (s : α) : Cartesian3 α := ⟨v.x * s, v.y * s, v.z * s⟩

/-- Squared euclidean norm of a `Cartesian3` (`Cartesian3.magnitudeSquared`). -/
def normSq3 (v : Cartesian3 α) : α := v.x * v.x + v.y * v.y + v.z * v.z

/-- `Cartesian3.magnitude`, with `Math.sqrt` supplied by the environment. -/
def magnitude3 (msqrt : α → α) (v : Cartesian3 α) : α := msqrt (normSq3 v)

/-- `Cartesian3.normalize`, with `Math.sqrt` supplied by the environment. -/
def normalize3 (msqrt : α → α) (v : Cartesian3 α) : Cartesian3 α :=
  let mag := magnitude3 msqrt v
  ⟨v.x / mag, v.y / mag, v.z / mag⟩

/-- `Cartesian2.subtract`. -/
def sub2 (a b : Cartesian2 α) : Cartesian2 α := ⟨a.x - b.x, a.y - b.y⟩

/-- `Cartesian2.add`. -/
def add2 (a b : Cartesian2 α) : Cartesian2 α := ⟨a.x + b.x, a.y + b.y⟩

/-- `Cartesian2.dot`. -/
def dot2 (a b : Cartesian2 α) : α := a.x * b.x + a.y * b.y

/-- Squared euclidean norm of a `Cartesian2`. -/
def normSq2 (v : Cartesian2 α) : α := v.x * v.x + v.y * v.y

/-- `Cartesian2.magnitude`, with `Math.sqrt` supplied by the environment. -/
def magnitude2 (msqrt : α → α) (v : Cartesian2 α) : α := msqrt (normSq2 v)

/-- `Cartesian2.normalize`, with `Math.sqrt` supplied by the environment. -/
def normalize2 (msqrt : α → α) (v : Cartesian2 α) : Cartesian2 α :=
  let mag := magnitude2 msqrt v
  ⟨v.x / mag, v.y / mag⟩

end VectorOps

section MatrixOps

variable [Add α] [Sub α] [Mul α] [Div α] [Neg α] [Zero α] [One α]

/-- `Matrix4.IDENTITY`. -/
def identity4 : Matrix4 α := ⟨1, 0, 0, 0, 0, 1, 0, 0, 0, 0, 1, 0, 0, 0, 0, 1⟩

/-- `new Matrix4()` — Cesium's default constructor is the all-zero matrix. -/
def zeroMatrix4 : Matrix4 α := ⟨0, 0, 0, 0, 0, 0, 0, 0, 0, 0, 0, 0, 0, 0, 0, 0⟩

/-- `Matrix3.IDENTITY`. -/
def identity3 : Matrix3 α := ⟨1, 0, 0, 0, 1, 0, 0, 0, 1⟩

/-- `Matrix4.multiply` (standard matrix product, column-major layout). -/
def mul4 (a b : Matrix4 α) : Matrix4 α :=
  ⟨a.m0 * b.m0 + a.m4 * b.m1 + a.m8 * b.m2 + a.m12 * b.m3,
    a.m1 * b.m0 + a.m5 * b.m1 + a.m9 * b.m2 + a.m13 * b.m3,
    a.m2 * b.m0 + a.m6 * b.m1 + a.m10 * b.m2 + a.m14 * b.m3,
    a.m3 * b.m0 + a.m7 * b.m1 + a.m11 * b.m2 + a.m15 * b.m3,
    a.m0 * b.m4 + a.m4 * b.m5 + a.m8 * b.m6 + a.m12 * b.m7,
    a.m1 * b.m4 + a.m5 * b.m5 + a.m9 * b.m6 + a.m13 * b.m7,
    a.m2 * b.m4 + a.m6 * b.m5 + a.m10 * b.m6 + a.m14 * b.m7,
    a.m3 * b.m4 + a.m7 * b.m5 + a.m11 * b.m6 + a.m15 * b.m7,
    a.m0 * b.m8 + a.m4 * b.m9 + a.m8 * b.m10 + a.m12 * b.m11,
    a.m1 * b.m8 + a.m5 * b.m9 + a.m9 * b.m10 + a.m13 * b.m11,
    a.m2 * b.m8 + a.m6 * b.m9 + a.m10 * b.m10 + a.m14 * b.m11,
    a.m3 * b.m8 + a.m7 * b.m9 + a.m11 * b.m10 + a.m15 * b.m11,
    a.m0 * b.m12 + a.m4 * b.m13 + a.m8 * b.m14 + a.m12 * b.m15,
    a.m1 * b.m12 + a.m5 * b.m13 + a.m9 * b.m14 + a.m13 * b.m15,
    a.m2 * b.m12 + a.m6 * b.m13 + a.m10 * b.m14 + a.m14 * b.m15,
    a.m3 * b.m12 + a.m7 * b.m13 + a.m11 * b.m14 + a.m15 * b.m15⟩

/-- Determinant of a `Matrix4` (Laplace expansion along the first row). -/
def det4 (m : Matrix4 α) : α :=
  m.m0 * (m.m5 * (m.m10 * m.m15 - m.m14 * m.m11) - m.m9 * (m.m6 * m.m15 - m.m14 * m.m7) + m.m13 * (m.m6 * m.m11 - m.m10 * m.m7))
  + (- m.m4 * (m.m1 * (m.m10 * m.m15 - m.m14 * m.m11) - m.m9 * (m.m2 * m.m15 - m.m14 * m.m3) + m.m13 * (m.m2 * m.m11 - m.m10 * m.m3)))
  + m.m8 * (m.m1 * (m.m6 * m.m15 - m.m14 * m.m7) - m.m5 * (m.m2 * m.m15 - m.m14 * m.m3) + m.m13 * (m.m2 * m.m7 - m.m6 * m.m3))
  + (- m.m12 * (m.m1 * (m.m6 * m.m11 - m.m10 * m.m7) - m.m5 * (m.m2 * m.m11 - m.m10 * m.m3) + m.m9 * (m.m2 * m.m7 - m.m6 * m.m3)))

/-- `Matrix4.inverse` by adjugate over determinant (general inverse; Cesium
additionally throws when the determinant is near zero — all uses below are on
invertible matrices). -/
def inverse4 (m : Matrix4 α) : Matrix4 α :=
  let d := det4 m
  ⟨(m.m5 * (m.m10 * m.m15 - m.m14 * m.m11) - m.m9 * (m.m6 * m.m15 - m.m14 * m.m7) + m.m13 * (m.m6 * m.m11 - m.m10 * m.m7)) / d,
    (-(m.m1 * (m.m10 * m.m15 - m.m14 * m.m11) - m.m9 * (m.m2 * m.m15 - m.m14 * m.m3) + m.m13 * (m.m2 * m.m11 - m.m10 * m.m3))) / d,
    (m.m1 * (m.m6 * m.m15 - m.m14 * m.m7) - m.m5 * (m.m2 * m.m15 - m.m14 * m.m3) + m.m13 * (m.m2 * m.m7 - m.m6 * m.m3)) / d,
    (-(m.m1 * (m.m6 * m.m11 - m.m10 * m.m7) - m.m5 * (m.m2 * m.m11 - m.m10 * m.m3) + m.m9 * (m.m2 * m.m7 - m.m6 * m.m3))) / d,
    (-(m.m4 * (m.m10 * m.m15 - m.m14 * m.m11) - m.m8 * (m.m6 * m.m15 - m.m14 * m.m7) + m.m12 * (m.m6 * m.m11 - m.m10 * m.m7))) / d,
    (m.m0 * (m.m10 * m.m15 - m.m14 * m.m11) - m.m8 * (m.m2 * m.m15 - m.m14 * m.m3) + m.m12 * (m.m2 * m.m11 - m.m10 * m.m3)) / d,
    (-(m.m0 * (m.m6 * m.m15 - m.m14 * m.m7) - m.m4 * (m.m2 * m.m15 - m.m14 * m.m3) + m.m12 * (m.m2 * m.m7 - m.m6 * m.m3))) / d,
    (m.m0 * (m.m6 * m.m11 - m.m10 * m.m7) - m.m4 * (m.m2 * m.m11 - m.m10 * m.m3) + m.m8 * (m.m2 * m.m7 - m.m6 * m.m3)) / d,
    (m.m4 * (m.m9 * m.m15 - m.m13 * m.m11) - m.m8 * (m.m5 * m.m15 - m.m13 * m.m7) + m.m12 * (m.m5 * m.m11 - m.m9 * m.m7)) / d,
    (-(m.m0 * (m.m9 * m.m15 - m.m13 * m.m11) - m.m8 * (m.m1 * m.m15 - m.m13 * m.m3) + m.m12 * (m.m1 * m.m11 - m.m9 * m.m3))) / d,
    (m.m0 * (m.m5 * m.m15 - m.m13 * m.m7) - m.m4 * (m.m1 * m.m15 - m.m13 * m.m3) + m.m12 * (m.m1 * m.m7 - m.m5 * m.m3)) / d,
    (-(m.m0 * (m.m5 * m.m11 - m.m9 * m.m7) - m.m4 * (m.m1 * m.m11 - m.m9 * m.m3) + m.m8 * (m.m1 * m.m7 - m.m5 * m.m3))) / d,
    (-(m.m4 * (m.m9 * m.m14 - m.m13 * m.m10) - m.m8 * (m.m5 * m.m14 - m.m13 * m.m6) + m.m12 * (m.m5 * m.m10 - m.m9 * m.m6))) / d,
    (m.m0 * (m.m9 * m.m14 - m.m13 * m.m10) - m.m8 * (m.m1 * m.m14 - m.m13 * m.m2) + m.m12 * (m.m1 * m.m10 - m.m9 * m.m2)) / d,
    (-(m.m0 * (m.m5 * m.m14 - m.m13 * m.m6) - m.m4 * (m.m1 * m.m14 - m.m13 * m.m2) + m.m12 * (m.m1 * m.m6 - m.m5 * m.m2))) / d,
    (m.m0 * (m.m5 * m.m10 - m.m9 * m.m6) - m.m4 * (m.m1 * m.m10 - m.m9 * m.m2) + m.m8 * (m.m1 * m.m6 - m.m5 * m.m2)) / d⟩

/-- `Matrix4.fromTranslation`. -/
def fromTranslation (t : Cartesian3 α) : Matrix4 α :=
  ⟨1, 0, 0, 0, 0, 1, 0, 0, 0, 0, 1, 0, t.x, t.y, t.z, 1⟩

/-- `Matrix4.getTranslation` — flat entries 12, 13, 14. -/
def getTranslation (m : Matrix4 α) : Cartesian3 α := ⟨m.m12, m.m13, m.m14⟩

/-- `Matrix4.setTranslation` — replaces entries 12, 13, 14, keeps the rest. -/
def setTranslation (m : Matrix4 α) (t : Cartesian3 α) : Matrix4 α :=
  { m with m12 := t.x, m13 := t.y, m14 := t.z }

/-- `Matrix4.multiplyByPointAsVector` — applies the upper-left 3×3 block,
ignoring the translation. -/
def multiplyByPointAsVector (m : Matrix4 α) (v : Cartesian3 α) : Cartesian3 α :=
  ⟨m.m0 * v.x + m.m4 * v.y + m.m8 * v.z,
    m.m1 * v.x + m.m5 * v.y + m.m9 * v.z,
    m.m2 * v.x + m.m6 * v.y + m.m10 * v.z⟩

/-- `Matrix4.multiplyByScale` — scales the three basis columns in place,
exactly the entries Cesium scales (rows 0–2 of columns 0–2). -/
def multiplyByScale (m : Matrix4 α) (s : Cartesian3 α) : Matrix4 α :=
  { m with
    m0 := s.x * m.m0, m1 := s.x * m.m1, m2 := s.x * m.m2,
    m4 := s.y * m.m4, m5 := s.y * m.m5, m6 := s.y * m.m6,
    m8 := s.z * m.m8, m9 := s.z * m.m9, m10 := s.z * m.m10 }

/-- `Matrix4.fromUniformScale`. -/
def fromUniformScale (s : α) : Matrix4 α :=
  ⟨s, 0, 0, 0, 0, s, 0, 0, 0, 0, s, 0, 0, 0, 0, 1⟩

/-- `Matrix4.fromRotationTranslation`. -/
def fromRotationTranslation (r : Matrix3 α) (t : Cartesian3 α) : Matrix4 α :=
  ⟨r.m0, r.m1, r.m2, 0, r.m3, r.m4, r.m5, 0, r.m6, r.m7, r.m8, 0, t.x, t.y, t.z, 1⟩

/-- `Matrix4.getMatrix3` — the upper-left 3×3 block. -/
def getMatrix3 (m : Matrix4 α) : Matrix3 α :=
  ⟨m.m0, m.m1, m.m2, m.m4, m.m5, m.m6, m.m8, m.m9, m.m10⟩

/-- `new Matrix3(a, b, c, d, e, f, g, h, i)` — Cesium's constructor takes
row-major arguments and stores them column-major. -/
def mk3RowMajor (a b c d e f g h i : α) : Matrix3 α := ⟨a, d, g, b, e, h, c, f, i⟩

/-- `Matrix4.inverseTransformation` — inverse of an affine rotation+translation
matrix: transposed rotation block, rotated negated translation. -/
def inverseTransformation (m : Matrix4 α) : Matrix4 α :=
  ⟨m.m0, m.m4, m.m8, 0,
    m.m1, m.m5, m.m9, 0,
    m.m2, m.m6, m.m10, 0,
    -(m.m0 * m.m12 + m.m1 * m.m13 + m.m2 * m.m14),
    -(m.m4 * m.m12 + m.m5 * m.m13 + m.m6 * m.m14),
    -(m.m8 * m.m12 + m.m9 * m.m13 + m.m10 * m.m14), 1⟩

/-- Column 0 of the 3×3 block of a `Matrix4`. -/
def col0 (m : Matrix4 α) : Cartesian3 α := ⟨m.m0, m.m1, m.m2⟩

/-- Column 1 of the 3×3 block of a `Matrix4`. -/
def col1 (m : Matrix4 α) : Cartesian3 α := ⟨m.m4, m.m5, m.m6⟩

/-- Column 2 of the 3×3 block of a `Matrix4`. -/
def col2 (m : Matrix4 α) : Cartesian3 α := ⟨m.m8, m.m9, m.m10⟩

/-- The recurring scale-stripping snippet of the source (`mountToPrimitive`,
`updateModelMatrixFromMountedPrimitive`, `computeNodeGizmoMatrix`, and the
primitive scale branch): normalize the three rotation columns and reassemble
them with Cesium's row-major `Matrix3` constructor. -/
def stripScaleRotation (msqrt : α → α) (m : Matrix4 α) : Matrix3 α :=
  let c0 := normalize3 msqrt (col0 m)
  let c1 := normalize3 msqrt (col1 m)
  let c2 := normalize3 msqrt (col2 m)
  mk3RowMajor c0.x c1.x c2.x c0.y c1.y c2.y c0.z c1.z c2.z

/-- `Matrix4.getScale` — magnitudes of the three basis columns. -/
def decomposedScale (msqrt : α → α) (m : Matrix4 α) : Cartesian3 α :=
  ⟨magnitude3 msqrt (col0 m), magnitude3 msqrt (col1 m), magnitude3 msqrt (col2 m)⟩

/-- Squared version of `Matrix4.getScale`: the squared magnitudes of the three
basis columns.  The decomposed scale is `(1,1,1)` exactly when this is
`(1,1,1)` (square roots preserve `= 1` for nonnegative reals). -/
def decomposedScaleSq (m : Matrix4 α) : Cartesian3 α :=
  ⟨normSq3 (col0 m), normSq3 (col1 m), normSq3 (col2 m)⟩

end MatrixOps

end CTC

namespace CTC

/-- `GizmoPart` — the six pickable handle identifiers. -/
inductive GizmoPart where
  | xAxis
  | yAxis
  | zAxis
  | xyPlane
  | xzPlane
  | yzPlane
deriving DecidableEq, Repr

/-- `GizmoMode`. -/
inductive GizmoMode where
  | translate
  | rotate
  | scale
deriving DecidableEq, Repr

/-- `CoordinateMode` — local object frame or geodetic surface (ENU) frame. -/
inductive CoordinateMode where
  | local
  | surface
deriving DecidableEq, Repr

/-- Result of `viewer.scene.pick`: a gizmo handle (its `id` is a
`GizmoPart`), some other scene object, or nothing. -/
inductive PickHit where
  | part (p : GizmoPart)
  | other
deriving DecidableEq, Repr

/-- Per-drag data of a mounted Entity target (the virtual primitive wrapper of
`mountToEntity` plus the entity fields the handlers touch).  `position` is the
value of the entity's position property; `boxDimensions` is
`entity.box.dimensions` when the entity has a box visual;
`originalDimensions` is the `_originalDimensions` cache of the scale branch. -/
structure EntityData (α : Type) where
  wrapperMatrix : Matrix4 α
  position : Cartesian3 α
  boxDimensions : Option (Cartesian3 α)
  originalDimensions : Option (Cartesian3 α)
deriving DecidableEq, Repr

/-- Per-drag data of a mounted Node target: the wrapper matrix, the node's
local transform (`node.matrix`, kept in sync with `runtimeNode.transform` by
the source), the parent-chain matrices, the owning model's placement and
uniform scale, the `_visualOffset` rotation (identity when absent), and the
ad-hoc caches the handlers attach to the mounted object. -/
structure NodeData (α : Type) where
  wrapperMatrix : Matrix4 α
  nodeMatrix : Matrix4 α
  transformToRoot : Matrix4 α
  componentsTransform : Matrix4 α
  axisCorrection : Matrix4 α
  modelMatrix : Matrix4 α
  modelScale : α
  visualOffset : Matrix4 α
  nodeStartMatrix : Option (Matrix4 α)
  nodeRotateStartMatrix : Option (Matrix4 α)
  gizmoRotateStartMatrix : Option (Matrix4 α)
  rotateAccumulatedAngleCache : Option α
deriving DecidableEq, Repr

/-- The mounted target: the tagged union over the three mountable variants
(`_isEntity` / `_isNode` flags in the source). -/
inductive MountedTarget (α : Type) where
  | primitive (modelMatrix : Matrix4 α)
  | entity (e : EntityData α)
  | node (n : NodeData α)
deriving DecidableEq, Repr

/-- The wrapper/object matrix of the mounted target
(`gizmo._mountedPrimitive.modelMatrix`). -/
def MountedTarget.wrapperMatrix : MountedTarget α → Matrix4 α
  | .primitive m => m
  | .entity e => e.wrapperMatrix
  | .node n => n.wrapperMatrix

/-- `viewer.scene.screenSpaceCameraController`: the five enable flags and the
three per-gesture event-type bindings the handlers disable and restore.
Bindings are modelled as opaque lists of numeric event-type codes. -/
structure CameraController where
  enableRotate : Bool
  enableTranslate : Bool
  enableZoom : Bool
  enableTilt : Bool
  enableLook : Bool
  tiltEventTypes : List ℕ
  rotateEventTypes : List ℕ
  zoomEventTypes : List ℕ
deriving DecidableEq, Repr

/-- The full mutable state the pointer handlers in
`GizmoComponentPrimitive.ts` read and write: the gizmo facade fields plus the
module-level interaction-session variables. -/
structure GizmoState (α : Type) where
  enabled : Bool
  mode : Option GizmoMode
  coordinateMode : Option CoordinateMode
  applyTransformation : Bool
  autoSyncMountedPrimitive : Bool
  modelMatrix : Matrix4 α
  target : Option (MountedTarget α)
  lastSyncedPosition : Option (Cartesian3 α)
  isInteracting : Bool
  pickedGizmoId : Option GizmoPart
  startPos : Cartesian2 α
  gizmoStartPos : Cartesian3 α
  gizmoStartModelMatrix : Matrix4 α
  mountedPrimitiveStartModelMatrix : Matrix4 α
  rotateAccumulatedAngle : α
  rotateStartEnuMatrix : Matrix4 α
  originalTiltEventTypes : Option (List ℕ)
  originalRotateEventTypes : Option (List ℕ)
  originalZoomEventTypes : Option (List ℕ)
  controller : CameraController
  hover : Option GizmoPart
  helperVisible : List GizmoPart
deriving DecidableEq, Repr

/-- A `MOUSE_MOVE` event payload (`movement.startPosition` /
`movement.endPosition`). -/
structure MotionEvent (α : Type) where
  startPosition : Cartesian2 α
  endPosition : Cartesian2 α
deriving DecidableEq, Repr

/-- The external collaborators of the embedded code, all provided by the
Cesium engine and treated as opaque inputs: screen projection, `Math.sqrt`,
`camera.getPixelSize` (center, radius, canvas width, canvas height),
canvas dimensions, `Transforms.eastNorthUpToFixedFrame`,
`Cartographic.fromCartesian` / `toCartesian`, and `scene.pick`. -/
structure Env (α : Type) where
  w2w : Cartesian3 α → Option (Cartesian2 α)
  msqrt : α → α
  getPixelSize : Cartesian3 α → α → α → α → α
  canvasWidth : α
  canvasHeight : α
  enuFrame : Cartesian3 α → Matrix4 α
  cartoFromCartesian : Cartesian3 α → Cartographic α
  cartoToCartesian : Cartographic α → Cartesian3 α
  pick : Cartesian2 α → Option PickHit

end CTC

namespace CTC

section Machine

variable {α : Type} [Add α] [Sub α] [Mul α] [Div α] [Neg α] [Zero α] [One α] [NatCast α]

/-- Unit axis direction for an axis handle (`Cartesian3.UNIT_X/Y/Z` in the
`switch` of `getTrans` / `getScale`); `none` for the plane handles, matching
the `default: return …` branches. -/
def axisUnitFor : GizmoPart → Option (Cartesian3 α)
  | .xAxis => some unitX
  | .yAxis => some unitY
  | .zAxis => some unitZ
  | _ => none

/-- The two unit axes of a plane handle (the `switch` of `getPlaneTrans` /
`getPlaneScale`); `none` for the axis handles. -/
def planeAxesFor : GizmoPart → Option (Cartesian3 α × Cartesian3 α)
  | .xyPlane => some (unitX, unitY)
  | .xzPlane => some (unitX, unitZ)
  | .yzPlane => some (unitY, unitZ)
  | _ => none

/-- The `pickedGizmoId === GizmoPart.xyPlane || …` test of the mode
branches. -/
def isPlanePart : GizmoPart → Bool
  | .xyPlane => true
  | .xzPlane => true
  | .yzPlane => true
  | _ => false

/-- `getTrans` of `GizmoComponentPrimitive.ts`: project the handle axis to
screen space, project the mouse delta onto it, convert to meters, and return
the offset in world coordinates (Local/null frame) or in the ENU frame
(Surface). -/
def getTrans (p : GizmoPart) (env : Env α) (mouseDir : Cartesian2 α)
    (coordMode : Option CoordinateMode) (gizmoStartPos : Cartesian3 α)
    (gizmoStartModelMatrix : Matrix4 α) : Cartesian3 α :=
  match axisUnitFor p with
  | none => zero3
  | some axisDir =>
    let transform : Matrix4 α :=
      match coordMode with
      | some .local => gizmoStartModelMatrix
      | _ => env.enuFrame gizmoStartPos
    let axisDirOnWorldCoordinates := multiplyByPointAsVector transform axisDir
    match env.w2w gizmoStartPos with
    | none => zero3
    | some originPosOnWindowCoordinates =>
      match env.w2w (add3 gizmoStartPos axisDirOnWorldCoordinates) with
      | none => zero3
      | some endPosOnWindowCoordinates =>
        let axisDirOnWindowCoordinates :=
          sub2 endPosOnWindowCoordinates originPosOnWindowCoordinates
        let deltaPixelsAlongAxis :=
          dot2 axisDirOnWindowCoordinates mouseDir /
            magnitude2 env.msqrt axisDirOnWindowCoordinates
        let metersPerPixel :=
          env.getPixelSize gizmoStartPos (magnitude3 env.msqrt axisDirOnWorldCoordinates)
            env.canvasWidth env.canvasHeight
        let distance := deltaPixelsAlongAxis * metersPerPixel
        match coordMode with
        | some .surface => scale3 axisDir distance
        | _ => scale3 axisDirOnWorldCoordinates distance

/-- `getPlaneTrans`: the same projection performed independently for the
plane's two axes, summed. -/
def getPlaneTrans (p : GizmoPart) (env : Env α) (mouseDir : Cartesian2 α)
    (coordMode : Option CoordinateMode) (gizmoStartPos : Cartesian3 α)
    (gizmoStartModelMatrix : Matrix4 α) : Cartesian3 α :=
  match planeAxesFor p with
  | none => zero3
  | some (axis1Dir, axis2Dir) =>
    let transform : Matrix4 α :=
      match coordMode with
      | some .local => gizmoStartModelMatrix
      | _ => env.enuFrame gizmoStartPos
    let axis1DirWorld := multiplyByPointAsVector transform axis1Dir
    let axis2DirWorld := multiplyByPointAsVector transform axis2Dir
    match env.w2w gizmoStartPos with
    | none => zero3
    | some originPosOnWindowCoordinates =>
      match env.w2w (add3 gizmoStartPos axis1DirWorld) with
      | none => zero3
      | some axis1EndPosOnWindow =>
        match env.w2w (add3 gizmoStartPos axis2DirWorld) with
        | none => zero3
        | some axis2EndPosOnWindow =>
          let axis1DirOnWindow := sub2 axis1EndPosOnWindow originPosOnWindowCoordinates
          let axis2DirOnWindow := sub2 axis2EndPosOnWindow originPosOnWindowCoordinates
          let deltaPixelsAxis1 :=
            dot2 axis1DirOnWindow mouseDir / magnitude2 env.msqrt axis1DirOnWindow
          let deltaPixelsAxis2 :=
            dot2 axis2DirOnWindow mouseDir / magnitude2 env.msqrt axis2DirOnWindow
          let metersPerPixel :=
            env.getPixelSize gizmoStartPos (magnitude3 env.msqrt axis1DirWorld)
              env.canvasWidth env.canvasHeight
          let distance1 := deltaPixelsAxis1 * metersPerPixel
          let distance2 := deltaPixelsAxis2 * metersPerPixel
          match coordMode with
          | some .surface =>
            add3 (scale3 axis1Dir distance1) (scale3 axis2Dir distance2)
          | _ =>
            add3 (scale3 axis1DirWorld distance1) (scale3 axis2DirWorld distance2)

/-- `getScale`: axis-handle scale factor `pixels/10 + 1` from the mouse delta
projected onto the screen-space axis direction.  The axis direction always
comes from `gizmoStartModelMatrix` (the drag-start display transform); the
function has no Surface-frame path.  Returns `none` when a projection is
unavailable (`undefined` in the source). -/
def getScale (p : GizmoPart) (env : Env α) (gizmoStartPos : Cartesian3 α)
    (gizmoStartModelMatrix : Matrix4 α) (mouseDir : Cartesian2 α) :
    Option (Cartesian3 α) :=
  match axisUnitFor p with
  | none => none
  | some u =>
    let axisDirOnWorldCoordinates := multiplyByPointAsVector gizmoStartModelMatrix u
    match env.w2w gizmoStartPos with
    | none => none
    | some originPosOnWindowCoordinates =>
      match env.w2w (add3 gizmoStartPos axisDirOnWorldCoordinates) with
      | none => none
      | some endPosOnWindowCoordinates =>
        let axisDirOnWindowCoordinates :=
          sub2 endPosOnWindowCoordinates originPosOnWindowCoordinates
        let deltaPixelsAlongAxis :=
          dot2 axisDirOnWindowCoordinates mouseDir /
            magnitude2 env.msqrt axisDirOnWindowCoordinates
        let factor := deltaPixelsAlongAxis / ((10 : ℕ) : α) + 1
        some (match p with
          | .xAxis => ⟨factor, 1, 1⟩
          | .yAxis => ⟨1, factor, 1⟩
          | _ => ⟨1, 1, factor⟩)

/-- `getPlaneScale`: plane-handle scale factor from the mouse delta projected
onto the normalized sum of the two normalized screen-space axis directions;
the two in-plane components share the single factor.  Returns `none` when any
of the three screen projections is unavailable. -/
def getPlaneScale (p : GizmoPart) (env : Env α) (gizmoStartPos : Cartesian3 α)
    (gizmoStartModelMatrix : Matrix4 α) (mouseDir : Cartesian2 α) :
    Option (Cartesian3 α) :=
  match planeAxesFor p with
  | none => none
  | some (axis1Dir, axis2Dir) =>
    let axis1DirWorld := multiplyByPointAsVector gizmoStartModelMatrix axis1Dir
    let axis2DirWorld := multiplyByPointAsVector gizmoStartModelMatrix axis2Dir
    match env.w2w gizmoStartPos with
    | none => none
    | some originPosOnWindowCoordinates =>
      match env.w2w (add3 gizmoStartPos axis1DirWorld) with
      | none => none
      | some axis1EndPosOnWindow =>
        match env.w2w (add3 gizmoStartPos axis2DirWorld) with
        | none => none
        | some axis2EndPosOnWindow =>
          let axis1DirOnWindow := sub2 axis1EndPosOnWindow originPosOnWindowCoordinates
          let axis2DirOnWindow := sub2 axis2EndPosOnWindow originPosOnWindowCoordinates
          let avgDirOnWindow :=
            normalize2 env.msqrt
              (add2 (normalize2 env.msqrt axis1DirOnWindow)
                (normalize2 env.msqrt axis2DirOnWindow))
          let deltaPixelsAlongPlane := dot2 avgDirOnWindow mouseDir
          let factor := deltaPixelsAlongPlane / ((10 : ℕ) : α) + 1
          some (match p with
            | .xyPlane => ⟨factor, factor, 1⟩
            | .xzPlane => ⟨factor, 1, factor⟩
            | _ => ⟨1, factor, factor⟩)

/-- The axis-constraint `switch` of the Surface translate branch
(`GizmoComponentPrimitive.ts` lines 771–805): reset the constrained geodetic
components of the computed result to their drag-start values. -/
def surfaceTranslateConstraint (p : GizmoPart) (startC resultC : Cartographic α) :
    Cartographic α :=
  match p with
  | .xAxis => { resultC with latitude := startC.latitude, height := startC.height }
  | .yAxis => { resultC with longitude := startC.longitude, height := startC.height }
  | .zAxis => { resultC with longitude := startC.longitude, latitude := startC.latitude }
  | .xyPlane => { resultC with height := startC.height }
  | .xzPlane => { resultC with latitude := startC.latitude }
  | .yzPlane => { resultC with longitude := startC.longitude }

/-- The node world-matrix chain used throughout the handlers:
`modelMatrix × componentsTransform × axisCorrection × transformToRoot ×
nodeLocal`, left-multiplied by a uniform-scale matrix when the model's scalar
scale differs from 1 (JavaScript `!==` comparison). -/
def nodeWorldFromLocal (ops : NumOps α) (n : NodeData α) (nodeMatrix : Matrix4 α) :
    Matrix4 α :=
  let step1 := mul4 n.transformToRoot nodeMatrix
  let step2 := mul4 n.axisCorrection step1
  let step3 := mul4 n.componentsTransform step2
  let step4 := if ops.jsEq n.modelScale 1 then step3 else mul4 (fromUniformScale n.modelScale) step3
  mul4 n.modelMatrix step4

/-- `computeNodeGizmoMatrix`: recompute the node's world matrix from a new
local matrix, strip the scale from its rotation by column normalization,
compose with the stored visual-offset rotation, and reattach the world
position. -/
def computeNodeGizmoMatrix (env : Env α) (ops : NumOps α) (n : NodeData α)
    (newNodeMatrix : Matrix4 α) : Matrix4 α :=
  let world := nodeWorldFromLocal ops n newNodeMatrix
  let position := getTranslation world
  let physRotationPure := stripScaleRotation env.msqrt world
  let physMatrixPure := fromRotationTranslation physRotationPure zero3
  let visualMatrixPure := mul4 physMatrixPure n.visualOffset
  let visualRotation := getMatrix3 visualMatrixPure
  fromRotationTranslation visualRotation position

/-- `findMaxAxis` of the node scale branch: index (0/1/2) of the component
with the largest absolute value, with JavaScript `>=` comparisons. -/
def findMaxAxis (ops : NumOps α) (dir : Cartesian3 α) : ℕ :=
  let absX := ops.jsAbs dir.x
  let absY := ops.jsAbs dir.y
  let absZ := ops.jsAbs dir.z
  if ops.jsGe absX absY && ops.jsGe absX absZ then 0
  else if ops.jsGe absY absZ then 1
  else 2

/-- One `localScaleArr[idx] = value` assignment of the node scale branch. -/
def setScaleComponent (t : Cartesian3 α) (i : ℕ) (v : α) : Cartesian3 α :=
  if i = 0 then { t with x := v } else if i = 1 then { t with y := v } else { t with z := v }

/-- The gizmo-axis to node-axis scale remapping of the node scale branch:
transform the gizmo's drag-start axes into node-local space, find for each
the most nearly parallel node axis, and assign the scale factors by
sequential array writes (later writes overwrite earlier ones, as in the
source). -/
def nodeScaleLocalScale (ops : NumOps α) (gizmoStartModelMatrix : Matrix4 α)
    (worldToLocalMatrix : Matrix4 α) (sc : Cartesian3 α) : Cartesian3 α :=
  let gizmoXWorld := multiplyByPointAsVector gizmoStartModelMatrix unitX
  let gizmoYWorld := multiplyByPointAsVector gizmoStartModelMatrix unitY
  let gizmoZWorld := multiplyByPointAsVector gizmoStartModelMatrix unitZ
  let localXDir := multiplyByPointAsVector worldToLocalMatrix gizmoXWorld
  let localYDir := multiplyByPointAsVector worldToLocalMatrix gizmoYWorld
  let localZDir := multiplyByPointAsVector worldToLocalMatrix gizmoZWorld
  let xIdx := findMaxAxis ops localXDir
  let yIdx := findMaxAxis ops localYDir
  let zIdx := findMaxAxis ops localZDir
  let arr0 : Cartesian3 α := ⟨1, 1, 1⟩
  let arr1 := setScaleComponent arr0 xIdx sc.x
  let arr2 := setScaleComponent arr1 yIdx sc.y
  setScaleComponent arr2 zIdx sc.z

/-- The `scale` computation of the scale-mode branch: plane handles use
`getPlaneScale`, axis handles use `getScale`; both receive the drag-start
display transform regardless of the active coordinate mode. -/
def scaleVecFor (env : Env α) (s : GizmoState α) (p : GizmoPart)
    (mouseDir : Cartesian2 α) : Option (Cartesian3 α) :=
  if isPlanePart p then getPlaneScale p env s.gizmoStartPos s.gizmoStartModelMatrix mouseDir
  else getScale p env s.gizmoStartPos s.gizmoStartModelMatrix mouseDir

/-- Entity scale application: component-wise scale of the cached original box
dimensions; the display transform is not touched. -/
def scaleApplyEntity (s : GizmoState α) (e : EntityData α) (sc : Cartesian3 α) :
    GizmoState α :=
  match e.boxDimensions with
  | none => s
  | some dims =>
    let orig := e.originalDimensions.getD dims
    let newDims : Cartesian3 α := ⟨orig.x * sc.x, orig.y * sc.y, orig.z * sc.z⟩
    { s with target := some (.entity { e with
        boxDimensions := some newDims, originalDimensions := some orig }) }

/-- Node scale application: cache the drag-start local matrix, remap the scale
vector from gizmo axes to node axes through the inverse node world matrix,
post-multiply the start matrix by the remapped scale, and rebuild wrapper and
display matrices through `computeNodeGizmoMatrix`. -/
def scaleApplyNode (env : Env α) (ops : NumOps α) (s : GizmoState α)
    (n : NodeData α) (sc : Cartesian3 α) : GizmoState α :=
  let nodeTransform := n.nodeMatrix
  let nodeStartMatrix := n.nodeStartMatrix.getD nodeTransform
  let n0 := { n with nodeStartMatrix := some nodeStartMatrix }
  let nodeWorldMatrix := nodeWorldFromLocal ops n0 nodeStartMatrix
  let worldToLocalMatrix := inverse4 nodeWorldMatrix
  let localScale := nodeScaleLocalScale ops s.gizmoStartModelMatrix worldToLocalMatrix sc
  let scaledMatrix := multiplyByScale nodeStartMatrix localScale
  let gizmoMatrix := computeNodeGizmoMatrix env ops n0 scaledMatrix
  { s with
    target := some (.node { n0 with nodeMatrix := scaledMatrix, wrapperMatrix := gizmoMatrix }),
    modelMatrix := gizmoMatrix }

/-- Primitive scale application: scale the drag-start physical matrix, assign
it to the target, and rebuild the display matrix from the column-normalized
rotation plus the translation. -/
def scaleApplyPrimitive (env : Env α) (s : GizmoState α) (sc : Cartesian3 α) :
    GizmoState α :=
  let resultMatrix := multiplyByScale s.mountedPrimitiveStartModelMatrix sc
  let position := getTranslation resultMatrix
  let pureRotation := stripScaleRotation env.msqrt resultMatrix
  let gizmoMatrix := fromRotationTranslation pureRotation position
  { s with target := some (.primitive resultMatrix), modelMatrix := gizmoMatrix }

/-- The scale-mode branch of the pointer-move handler
(`GizmoComponentPrimitive.ts` lines 1133–1308). -/
def scaleStep (env : Env α) (ops : NumOps α) (s : GizmoState α) (p : GizmoPart)
    (mouseDir : Cartesian2 α) : GizmoState α :=
  match scaleVecFor env s p mouseDir with
  | none => s
  | some sc =>
    if s.applyTransformation then
      match s.target with
      | some (.entity e) => scaleApplyEntity s e sc
      | some (.node n) => scaleApplyNode env ops s n sc
      | some (.primitive _) => scaleApplyPrimitive env s sc
      | none => s
    else s

end Machine

end CTC

namespace CTC

section Machine2

variable {α : Type} [Add α] [Sub α] [Mul α] [Div α] [Neg α] [Zero α] [One α] [NatCast α]

/-- The `trans` computation of the translate-mode branch: plane handles use
`getPlaneTrans`, axis handles use `getTrans`. -/
def transFor (env : Env α) (s : GizmoState α) (p : GizmoPart)
    (mouseDir : Cartesian2 α) : Cartesian3 α :=
  if isPlanePart p then
    getPlaneTrans p env mouseDir s.coordinateMode s.gizmoStartPos s.gizmoStartModelMatrix
  else
    getTrans p env mouseDir s.coordinateMode s.gizmoStartPos s.gizmoStartModelMatrix

/-- The result matrix of the Local translate branch:
`fromTranslation(trans) × gizmoStartModelMatrix`, the matrix whose
translation components the NaN guard inspects. -/
def localTranslateResult (env : Env α) (s : GizmoState α) (p : GizmoPart)
    (mouseDir : Cartesian2 α) : Matrix4 α :=
  mul4 (fromTranslation (transFor env s p mouseDir)) s.gizmoStartModelMatrix

/-- The NaN guard of both translate branches:
`Number.isNaN(r[12]) || Number.isNaN(r[13]) || Number.isNaN(r[14])`. -/
def hasNaNTranslation (ops : NumOps α) (m : Matrix4 α) : Bool :=
  ops.isNaN m.m12 || ops.isNaN m.m13 || ops.isNaN m.m14

/-- Node application of the Local translate branch: convert the world-space
frame delta into node-local space through the inverse node world matrix,
post-multiply the node's local matrix, then rebuild the display matrix with
the drag-start rotation and the freshly derived position. -/
def translateApplyLocalNode (env : Env α) (ops : NumOps α) (s1 : GizmoState α)
    (n : NodeData α) (newMatrix : Matrix4 α) : GizmoState α :=
  let currentGizmoTranslation := getTranslation newMatrix
  let lastGizmoTranslation := getTranslation n.wrapperMatrix
  let deltaWorld := sub3 currentGizmoTranslation lastGizmoTranslation
  let nodeWorldMatrix := nodeWorldFromLocal ops n n.nodeMatrix
  let deltaInNodeSpace := multiplyByPointAsVector (inverse4 nodeWorldMatrix) deltaWorld
  let newNodeMatrix := mul4 n.nodeMatrix (fromTranslation deltaInNodeSpace)
  let updatedGizmoMatrix := computeNodeGizmoMatrix env ops n newNodeMatrix
  let newPosition := getTranslation updatedGizmoMatrix
  let startRotation := getMatrix3 s1.gizmoStartModelMatrix
  let stableGizmoMatrix := fromRotationTranslation startRotation newPosition
  { s1 with
    target := some (.node { n with
      nodeMatrix := newNodeMatrix, wrapperMatrix := stableGizmoMatrix }),
    modelMatrix := stableGizmoMatrix }

/-- The Local translate branch of the pointer-move handler
(`GizmoComponentPrimitive.ts` lines 626–752), including the NaN guard that
returns before any mutation. -/
def translateLocalStep (env : Env α) (ops : NumOps α) (s : GizmoState α)
    (p : GizmoPart) (mouseDir : Cartesian2 α) : GizmoState α :=
  let resultMatrix := localTranslateResult env s p mouseDir
  if hasNaNTranslation ops resultMatrix then s
  else
    let translation := getTranslation resultMatrix
    let newMatrix := setTranslation s.modelMatrix translation
    let s1 := { s with modelMatrix := newMatrix }
    if s.applyTransformation then
      match s.target with
      | some (.entity e) =>
        { s1 with
          target := some (.entity { e with position := translation }),
          lastSyncedPosition := some translation }
      | some (.node n) => translateApplyLocalNode env ops s1 n newMatrix
      | some (.primitive m) =>
        { s1 with target := some (.primitive (setTranslation m translation)) }
      | none => s1
    else s1

/-- The constrained geodetic result of the Surface translate branch
(`GizmoComponentPrimitive.ts` lines 756–808): apply the ENU offset at the
drag-start position, convert to geographic coordinates, and reset the
constrained components to their drag-start values. -/
def surfaceResultCarto (env : Env α) (s : GizmoState α) (p : GizmoPart)
    (mouseDir : Cartesian2 α) : Cartographic α :=
  let trans := transFor env s p mouseDir
  let startCartographic := env.cartoFromCartesian s.gizmoStartPos
  let enuMatrix := env.enuFrame s.gizmoStartPos
  let worldOffset := multiplyByPointAsVector enuMatrix trans
  let newWorldPosition := add3 s.gizmoStartPos worldOffset
  let resultCartographic := env.cartoFromCartesian newWorldPosition
  surfaceTranslateConstraint p startCartographic resultCartographic

/-- The result matrix of the Surface translate branch: the drag-start-relative
orientation re-expressed in a fresh ENU frame at the constrained result
position. -/
def surfaceTranslateResult (env : Env α) (s : GizmoState α) (p : GizmoPart)
    (mouseDir : Cartesian2 α) : Matrix4 α :=
  let resultPosition := env.cartoToCartesian (surfaceResultCarto env s p mouseDir)
  let oldEnuMatrixInverse := inverseTransformation (env.enuFrame s.gizmoStartPos)
  let relativeTransform := mul4 oldEnuMatrixInverse s.gizmoStartModelMatrix
  let newEnuMatrix := env.enuFrame resultPosition
  mul4 newEnuMatrix relativeTransform

/-- Node application of the Surface translate branch: like the Local node
path, but the wrapper and display matrices are set to the full ENU result
matrix. -/
def translateApplySurfaceNode (_env : Env α) (ops : NumOps α) (s1 : GizmoState α)
    (n : NodeData α) (resultMatrix : Matrix4 α) : GizmoState α :=
  let newWorldPosition := getTranslation resultMatrix
  let lastGizmoTranslation := getTranslation n.wrapperMatrix
  let deltaWorld := sub3 newWorldPosition lastGizmoTranslation
  let nodeWorldMatrix := nodeWorldFromLocal ops n n.nodeMatrix
  let deltaInNodeSpace := multiplyByPointAsVector (inverse4 nodeWorldMatrix) deltaWorld
  let newNodeMatrix := mul4 n.nodeMatrix (fromTranslation deltaInNodeSpace)
  { s1 with
    target := some (.node { n with
      nodeMatrix := newNodeMatrix, wrapperMatrix := resultMatrix }),
    modelMatrix := resultMatrix }

/-- The Surface translate branch of the pointer-move handler
(`GizmoComponentPrimitive.ts` lines 753–927), including the NaN guard that
returns before any mutation. -/
def translateSurfaceStep (env : Env α) (ops : NumOps α) (s : GizmoState α)
    (p : GizmoPart) (mouseDir : Cartesian2 α) : GizmoState α :=
  let resultMatrix := surfaceTranslateResult env s p mouseDir
  if hasNaNTranslation ops resultMatrix then s
  else
    let s1 := { s with modelMatrix := resultMatrix }
    if s.applyTransformation then
      match s.target with
      | some (.entity e) =>
        let newPosition := getTranslation resultMatrix
        { s1 with
          target := some (.entity { e with position := newPosition }),
          lastSyncedPosition := some newPosition }
      | some (.node n) => translateApplySurfaceNode env ops s1 n resultMatrix
      | some (.primitive _) =>
        let originalScale := decomposedScale env.msqrt s.mountedPrimitiveStartModelMatrix
        { s1 with
          target := some (.primitive (multiplyByScale resultMatrix originalScale)) }
      | none => s1
    else s1

/-- The translate-mode branch: dispatch on the active coordinate mode; a null
coordinate mode matches neither strict-equality test and mutates nothing. -/
def translateStep (env : Env α) (ops : NumOps α) (s : GizmoState α) (p : GizmoPart)
    (mouseDir : Cartesian2 α) : GizmoState α :=
  match s.coordinateMode with
  | some .local => translateLocalStep env ops s p mouseDir
  | some .surface => translateSurfaceStep env ops s p mouseDir
  | none => s

/-- The hover path of the pointer-move handler (no handle held): update the
hovered handle and the helper-line visibility set.  The material swaps of the
source act on renderer-owned material objects and are outside the model. -/
def hoverUpdate (env : Env α) (s : GizmoState α) (move : MotionEvent α) :
    GizmoState α :=
  let hovered := env.pick move.endPosition
  let newHover : Option GizmoPart :=
    match hovered with
    | some (.part p) => some p
    | _ => none
  let helpers : List GizmoPart :=
    match hovered with
    | some (.part .xAxis) => [.xAxis]
    | some (.part .yAxis) => [.yAxis]
    | some (.part .zAxis) => [.zAxis]
    | some (.part .xyPlane) => [.xAxis, .yAxis]
    | some (.part .xzPlane) => [.xAxis, .zAxis]
    | some (.part .yzPlane) => [.yAxis, .zAxis]
    | _ => []
  { s with hover := newHover, helperVisible := helpers }

/-- The `MOUSE_MOVE` handler (`GizmoComponentPrimitive.ts` lines 492–1309):
enabled gate, hover path when no handle is held, the zero-delta
short-circuit, then the mode dispatch.  The rotate branch (trigonometric
composition, exercised by no claim) is the explicit parameter `rotateStep`;
theorems quantify over it. -/
def mouseMove (env : Env α) (ops : NumOps α)
    (rotateStep : GizmoState α → GizmoPart → MotionEvent α → GizmoState α)
    (s : GizmoState α) (move : MotionEvent α) : GizmoState α :=
  if !s.enabled then s
  else
    match s.pickedGizmoId with
    | none => hoverUpdate env s move
    | some picked =>
      let mouseDirOnWindowCoordinates := sub2 move.endPosition s.startPos
      if ops.jsEq mouseDirOnWindowCoordinates.x 0 &&
          ops.jsEq mouseDirOnWindowCoordinates.y 0 then s
      else
        match s.mode with
        | some .translate => translateStep env ops s picked mouseDirOnWindowCoordinates
        | some .rotate => rotateStep s picked move
        | some .scale => scaleStep env ops s picked mouseDirOnWindowCoordinates
        | none => s

/-- The `LEFT_DOWN` handler (`GizmoComponentPrimitive.ts` lines 369–433):
enabled gate; on a handle hit capture the session snapshot, save and clear
the camera event-type bindings, and disable all five camera flags; on any
other hit clear the picked handle and re-enable rotate/translate only. -/
def leftDown (env : Env α) (s : GizmoState α) (position : Cartesian2 α) :
    GizmoState α :=
  if !s.enabled then s
  else
    match env.pick position with
    | none => s
    | some .other =>
      { s with
        pickedGizmoId := none,
        isInteracting := false,
        controller := { s.controller with enableRotate := true, enableTranslate := true } }
    | some (.part p) =>
      { s with
        pickedGizmoId := some p,
        originalTiltEventTypes := some s.controller.tiltEventTypes,
        originalRotateEventTypes := some s.controller.rotateEventTypes,
        originalZoomEventTypes := some s.controller.zoomEventTypes,
        controller :=
          { enableRotate := false, enableTranslate := false, enableZoom := false,
            enableTilt := false, enableLook := false,
            tiltEventTypes := [], rotateEventTypes := [], zoomEventTypes := [] },
        startPos := position,
        gizmoStartPos := ⟨s.modelMatrix.m12, s.modelMatrix.m13, s.modelMatrix.m14⟩,
        gizmoStartModelMatrix := s.modelMatrix,
        mountedPrimitiveStartModelMatrix :=
          match s.target with
          | some t => t.wrapperMatrix
          | none => s.mountedPrimitiveStartModelMatrix,
        isInteracting := true }

/-- The cache cleanup of the `LEFT_UP` handler: delete the ad-hoc
`_nodeStartMatrix` / `_nodeRotateStartMatrix` / `_gizmoRotateStartMatrix` /
`_rotateAccumulatedAngle` fields attached to the mounted object. -/
def clearTargetCaches : Option (MountedTarget α) → Option (MountedTarget α)
  | some (.node n) =>
    some (.node { n with
      nodeStartMatrix := none, nodeRotateStartMatrix := none,
      gizmoRotateStartMatrix := none, rotateAccumulatedAngleCache := none })
  | t => t

/-- The `LEFT_UP` handler (`GizmoComponentPrimitive.ts` lines 435–490).  It is
not gated by the enabled flag: the session is reset when a handle was held,
and the five camera flags are unconditionally re-enabled and the saved
event-type bindings restored and cleared. -/
def leftUp (s : GizmoState α) : GizmoState α :=
  let s1 :=
    if s.pickedGizmoId.isSome then
      { s with
        target := clearTargetCaches s.target,
        pickedGizmoId := none,
        startPos := zero2,
        gizmoStartPos := zero3,
        gizmoStartModelMatrix := zeroMatrix4,
        mountedPrimitiveStartModelMatrix := zeroMatrix4,
        rotateAccumulatedAngle := 0,
        rotateStartEnuMatrix := zeroMatrix4,
        isInteracting := false }
    else s
  { s1 with
    controller := { s1.controller with
      enableRotate := true, enableTranslate := true, enableZoom := true,
      enableTilt := true, enableLook := true,
      tiltEventTypes := s1.originalTiltEventTypes.getD s1.controller.tiltEventTypes,
      rotateEventTypes := s1.originalRotateEventTypes.getD s1.controller.rotateEventTypes,
      zoomEventTypes := s1.originalZoomEventTypes.getD s1.controller.zoomEventTypes },
    originalTiltEventTypes := none,
    originalRotateEventTypes := none,
    originalZoomEventTypes := none }

/-- The `LEFT_CLICK` handler (`GizmoComponentPrimitive.ts` lines 302–367):
enabled gate; clicking a gizmo-owned primitive is a no-op; clicking another
object runs the mount dispatch (`mountToNode` / `mountToEntity` /
`mountToPrimitive` plus the show/hide bookkeeping, abstracted as the
parameter `mountDispatch`); clicking empty space unmounts. -/
def leftClick (mountDispatch : GizmoState α → GizmoState α) (env : Env α)
    (s : GizmoState α) (position : Cartesian2 α) : GizmoState α :=
  if !s.enabled then s
  else
    match env.pick position with
    | some (.part _) => s
    | some .other => mountDispatch s
    | none => { s with target := none, lastSyncedPosition := none }

end Machine2

end CTC

namespace CTC

section MountSync

variable {α : Type} [Add α] [Sub α] [Mul α] [Div α] [Neg α] [Zero α] [One α] [NatCast α]

/-- `Gizmo.mountToPrimitive` (`Gizmo.ts` lines 2019–2064): store the object
as the mounted target, enable auto-sync, and set the display transform to the
object's matrix with the scale stripped by column normalization.  The
object's transform is always present in the model (the source logs an error
and returns for an object without one); the viewer-availability check is the
`viewerPresent` argument.  The bounding-box cache reset and `setMode` refresh
act on renderer state outside the model. -/
def mountToPrimitive (env : Env α) (viewerPresent : Bool) (s : GizmoState α)
    (primitiveMatrix : Matrix4 α) : GizmoState α :=
  if !viewerPresent then s
  else
    let position := getTranslation primitiveMatrix
    let pureRotation := stripScaleRotation env.msqrt primitiveMatrix
    let gizmoMatrix := fromRotationTranslation pureRotation position
    { s with
      target := some (.primitive primitiveMatrix),
      autoSyncMountedPrimitive := true,
      modelMatrix := gizmoMatrix }

/-- `Gizmo.forceSyncFromMountedPrimitive` (`Gizmo.ts` lines 1943–1967):
unconditional sync of the display transform from the mounted target.  For an
Entity target the display becomes a fresh ENU frame at the entity position
(entity resolution is modelled separately, see `resolveMountedEntity`); for
any other target with a matrix the display becomes a clone of that matrix —
the scale is not stripped here, unlike the per-frame sync. -/
def forceSyncFromMountedPrimitive (env : Env α) (viewerPresent : Bool)
    (s : GizmoState α) : GizmoState α :=
  match s.target with
  | none => s
  | some (.entity e) =>
    if !viewerPresent then s
    else { s with modelMatrix := env.enuFrame e.position }
  | some t => { s with modelMatrix := t.wrapperMatrix }

end MountSync

/-- An entity in the scene, for the re-acquisition model: `ref` stands for
JavaScript object identity, `id` is the Cesium entity id, and `props` are the
primitive-typed custom properties the locator matches on (modelled as
strings; the source also accepts numbers and booleans). -/
structure CEntity where
  ref : ℕ
  id : Option String
  props : List (String × String)
deriving DecidableEq, Repr

/-- JavaScript property access `entity[key]` on the custom properties. -/
def propValue (e : CEntity) (k : String) : Option String :=
  (e.props.find? (fun kv => kv.1 == k)).map (fun kv => kv.2)

/-- `MountedEntityLocator`. -/
structure CEntityLocator where
  entityId : Option String
  customProperties : Option (List (String × String))
deriving DecidableEq, Repr

/-- The `_entity` / `_entityLocator` pair carried by a mounted Entity
target. -/
structure MountedEntityRef where
  entity : CEntity
  locator : Option CEntityLocator
deriving DecidableEq, Repr

/-- `viewer.entities.contains` — reference identity, not structural
equality. -/
def collectionContains (entities : List CEntity) (e : CEntity) : Bool :=
  entities.any (fun x => x.ref == e.ref)

/-- `viewer.entities.getById`. -/
def collectionGetById (entities : List CEntity) (i : String) : Option CEntity :=
  entities.find? (fun x => x.id == some i)

/-- The `Object.entries(locator.customProperties).every(...)` predicate of
`resolveMountedEntity`. -/
def matchesAllCustomProperties (props : List (String × String)) (e : CEntity) : Bool :=
  props.all (fun kv => propValue e kv.1 == some kv.2)

/-- `Gizmo.resolveMountedEntity` (`Gizmo.ts` lines 2481–2521): return the
stored reference if it is still in the collection; otherwise re-acquire by
locator id, then by matching every locator custom property, updating the
stored reference on a hit; otherwise return the stale reference unchanged.
The returned pair is (updated mounted reference, resolved entity). -/
def resolveMountedEntity (viewerPresent : Bool) (entities : List CEntity)
    (mounted : MountedEntityRef) : MountedEntityRef × CEntity :=
  if !viewerPresent then (mounted, mounted.entity)
  else
    let hasValidEntity := collectionContains entities mounted.entity
    if hasValidEntity then (mounted, mounted.entity)
    else
      match mounted.locator with
      | none => (mounted, mounted.entity)
      | some locator =>
        let foundById :=
          match locator.entityId with
          | some i => collectionGetById entities i
          | none => none
        match foundById with
        | some found => ({ mounted with entity := found }, found)
        | none =>
          match locator.customProperties with
          | some props =>
            match entities.find? (matchesAllCustomProperties props) with
            | some found => ({ mounted with entity := found }, found)
            | none => (mounted, mounted.entity)
          | none => (mounted, mounted.entity)

/-- `getScaleForMinimumSize` of `minPixelSizeScaler.ts`.  `metersPerPixel` is
the result of the camera's pixel-size query against a unit-radius bounding
sphere at the gizmo position (an external camera operation; the 2D/Columbus
scene-mode remap only changes the position fed to that query), and `length`
is the gizmo's pixel length (`200 + 50` in the source). -/
def getScaleForMinimumSize (drawingBufferWidth drawingBufferHeight
    metersPerPixel glength : ℚ) : ℚ :=
  let maxPixelSize := max drawingBufferWidth drawingBufferHeight
  let radius : ℚ := 1
  let pixelsPerMeter := 1 / metersPerPixel
  let diameterInPixels := min (pixelsPerMeter * 2 * radius) maxPixelSize
  if diameterInPixels < glength then glength * metersPerPixel / (2 * radius) else 1

section SpecSide

/-- Formalization of the claimed axis-scale factor, written from the claim's
words: the dot product of the screen-projected axis direction with the mouse
delta, divided by that screen direction's length, divided by 10, plus 1. -/
def scaleFactorFromSpec (msqrt : ℚ → ℚ) (originWin endWin mouseDir : Cartesian2 ℚ) : ℚ :=
  let screenAxis := sub2 endWin originWin
  dot2 screenAxis mouseDir / msqrt (normSq2 screenAxis) / 10 + 1

/-- Formalization of the claimed axis-scale vector: the factor at the picked
axis, 1 elsewhere. -/
def axisScaleFromSpec (p : GizmoPart) (f : ℚ) : Cartesian3 ℚ :=
  match p with
  | .xAxis => ⟨f, 1, 1⟩
  | .yAxis => ⟨1, f, 1⟩
  | _ => ⟨1, 1, f⟩

/-- Formalization of the claimed plane-scale factor: the mouse delta projected
onto the normalized sum of the two axes' normalized screen directions,
divided by 10, plus 1. -/
def planeFactorFromSpec (msqrt : ℚ → ℚ) (originWin e1 e2 mouseDir : Cartesian2 ℚ) : ℚ :=
  let d1 := normalize2 msqrt (sub2 e1 originWin)
  let d2 := normalize2 msqrt (sub2 e2 originWin)
  dot2 (normalize2 msqrt (add2 d1 d2)) mouseDir / 10 + 1

/-- Formalization of the claimed plane-scale vector: the shared factor on the
two in-plane components, 1 on the remaining component. -/
def planeScaleFromSpec (p : GizmoPart) (f : ℚ) : Cartesian3 ℚ :=
  match p with
  | .xyPlane => ⟨f, f, 1⟩
  | .xzPlane => ⟨f, 1, f⟩
  | _ => ⟨1, f, f⟩

end SpecSide

section SideConditions

/-- The environment's `Math.sqrt` is exact at `v` and `v` is a nonzero column
norm: the side condition under which column normalization produces a unit
vector in exact arithmetic. -/
def columnOkB (msqrt : ℚ → ℚ) (c : Cartesian3 ℚ) : Bool :=
  decide (msqrt (normSq3 c) * msqrt (normSq3 c) = normSq3 c) && decide (normSq3 c ≠ 0)

/-- `columnOkB` for the three basis columns of a matrix. -/
def columnsOkB (msqrt : ℚ → ℚ) (m : Matrix4 ℚ) : Bool :=
  columnOkB msqrt (col0 m) && columnOkB msqrt (col1 m) && columnOkB msqrt (col2 m)

/-- Side condition of the amended scale-invariant claim: whenever the scale
step rebuilds the display transform, the environment's square root is exact
and the normalized columns are nonzero — and, for a Node target, the stored
visual offset is the identity rotation (the configuration the counterexample
removes). -/
def scaleStepRebuildOkB (env : Env ℚ) (s : GizmoState ℚ) (p : GizmoPart)
    (d : Cartesian2 ℚ) : Bool :=
  match scaleVecFor env s p d with
  | none => true
  | some sc =>
    if s.applyTransformation then
      match s.target with
      | some (.primitive _) =>
        columnsOkB env.msqrt (multiplyByScale s.mountedPrimitiveStartModelMatrix sc)
      | some (.node n) =>
        let nodeStartMatrix := n.nodeStartMatrix.getD n.nodeMatrix
        let worldToLocalMatrix := inverse4 (nodeWorldFromLocal opsQ n nodeStartMatrix)
        let localScale := nodeScaleLocalScale opsQ s.gizmoStartModelMatrix worldToLocalMatrix sc
        let scaledMatrix := multiplyByScale nodeStartMatrix localScale
        decide (n.visualOffset = identity4) &&
          columnsOkB env.msqrt (nodeWorldFromLocal opsQ n scaledMatrix)
      | _ => true
    else true

end SideConditions

end CTC

namespace CTC

/-- Column normalization yields a unit vector (in squared norm) whenever the
square root is exact at the column's squared norm and the column is
nonzero. -/
theorem normSq3_normalize3 (msqrt : ℚ → ℚ) (v : Cartesian3 ℚ)
    (h : msqrt (normSq3 v) * msqrt (normSq3 v) = normSq3 v)
    (hnz : normSq3 v ≠ 0) :
    normSq3 (normalize3 msqrt v) = 1 := by
  have hm : msqrt (normSq3 v) ≠ 0 := by
    intro h0
    apply hnz
    rw [← h, h0, mul_zero]
  simp only [normalize3, magnitude3, normSq3] at *
  field_simp
  linarith [h]

/-- Multiplying by the identity on the right is the identity (rational
model). -/
theorem mul4_identity4_right (m : Matrix4 ℚ) : mul4 m identity4 = m := by
  cases m
  simp [mul4, identity4]

/-- The 3×3 block of `fromRotationTranslation` is the given rotation. -/
theorem getMatrix3_fromRotationTranslation (r : Matrix3 ℚ) (t : Cartesian3 ℚ) :
    getMatrix3 (fromRotationTranslation r t) = r := rfl

/-- A display matrix rebuilt from a column-normalized rotation plus a
translation has squared decomposed scale `(1,1,1)`, under the square-root
side conditions. -/
theorem decomposedScaleSq_strip (msqrt : ℚ → ℚ) (M : Matrix4 ℚ) (t : Cartesian3 ℚ)
    (h : columnsOkB msqrt M = true) :
    decomposedScaleSq (fromRotationTranslation (stripScaleRotation msqrt M) t) =
      (⟨1, 1, 1⟩ : Cartesian3 ℚ) := by
  simp only [columnsOkB, columnOkB, Bool.and_eq_true, decide_eq_true_eq] at h
  obtain ⟨⟨⟨h0, h0nz⟩, h1, h1nz⟩, h2, h2nz⟩ := h
  have e0 : normSq3 (col0 (fromRotationTranslation (stripScaleRotation msqrt M) t)) =
      normSq3 (normalize3 msqrt (col0 M)) := rfl
  have e1 : normSq3 (col1 (fromRotationTranslation (stripScaleRotation msqrt M) t)) =
      normSq3 (normalize3 msqrt (col1 M)) := rfl
  have e2 : normSq3 (col2 (fromRotationTranslation (stripScaleRotation msqrt M) t)) =
      normSq3 (normalize3 msqrt (col2 M)) := rfl
  simp only [decomposedScaleSq, Cartesian3.mk.injEq]
  exact ⟨e0.trans (normSq3_normalize3 msqrt (col0 M) h0 h0nz),
    e1.trans (normSq3_normalize3 msqrt (col1 M) h1 h1nz),
    e2.trans (normSq3_normalize3 msqrt (col2 M) h2 h2nz)⟩

end CTC

namespace CTC

/-- Core of the amended scale-invariant claim, at the scale-branch level: if
the display transform has squared decomposed scale `(1,1,1)` before the scale
step, it still has it afterwards, under the rebuild side conditions. -/
theorem scaleStep_preserves_scaleSq (env : Env ℚ) (s : GizmoState ℚ) (p : GizmoPart)
    (d : Cartesian2 ℚ)
    (hpre : decomposedScaleSq s.modelMatrix = (⟨1, 1, 1⟩ : Cartesian3 ℚ))
    (hok : scaleStepRebuildOkB env s p d = true) :
    decomposedScaleSq ((scaleStep env opsQ s p d).modelMatrix) =
      (⟨1, 1, 1⟩ : Cartesian3 ℚ) := by
  unfold scaleStep
  unfold scaleStepRebuildOkB at hok
  rcases hsv : scaleVecFor env s p d with _ | sc
  · exact hpre
  · rw [hsv] at hok
    rcases hat : s.applyTransformation with _ | _
    · rw [hat] at hok
      simp only [hat, Bool.false_eq_true, if_false]
      exact hpre
    · rw [hat] at hok
      simp only [hat, if_true] at hok ⊢
      rcases htg : s.target with _ | t
      · simp only [htg]
        exact hpre
      · rw [htg] at hok
        rcases t with m | e | n
        · -- primitive branch
          simp only [scaleApplyPrimitive]
          exact decomposedScaleSq_strip env.msqrt _ _ hok
        · -- entity branch: the display transform is untouched
          rcases hbd : e.boxDimensions with _ | dims
          · simp only [scaleApplyEntity, hbd]
            exact hpre
          · simp only [scaleApplyEntity, hbd]
            exact hpre
        · -- node branch, with identity visual offset
          rw [Bool.and_eq_true, decide_eq_true_eq] at hok
          obtain ⟨hvo, hcols⟩ := hok
          simp only [scaleApplyNode, computeNodeGizmoMatrix, hvo,
            mul4_identity4_right, getMatrix3_fromRotationTranslation]
          exact decomposedScaleSq_strip env.msqrt _ _ hcols

end CTC

namespace CTC

/-- Stub square root used by the concrete rational examples: exact on the
perfect squares the examples hit. -/
def msqrtW : ℚ → ℚ := fun q =>
  if q = 1 then 1 else if q = 4 then 2 else if q = 36 / 25 then 6 / 5 else 0

/-- Concrete environment for the rational examples: an orthographic-style
screen projection dropping `z`, the stub square root, unit pixel size, and
identity ENU frames. -/
def envW : Env ℚ where
  w2w := fun v => some ⟨v.x, v.y⟩
  msqrt := msqrtW
  getPixelSize := fun _ _ _ _ => 1
  canvasWidth := 100
  canvasHeight := 100
  enuFrame := fun _ => identity4
  cartoFromCartesian := fun v => ⟨v.x, v.y, v.z⟩
  cartoToCartesian := fun c => ⟨c.longitude, c.latitude, c.height⟩
  pick := fun _ => none

/-- Camera controller with everything enabled and distinct binding tokens. -/
def controllerW : CameraController where
  enableRotate := true
  enableTranslate := true
  enableZoom := true
  enableTilt := true
  enableLook := true
  tiltEventTypes := [1]
  rotateEventTypes := [2]
  zoomEventTypes := [3]

/-- Base concrete state for the rational examples: enabled, scale mode, Local
frame, x-axis handle held from screen position (0,0) with identity drag-start
transforms. -/
def baseStateQ : GizmoState ℚ where
  enabled := true
  mode := some .scale
  coordinateMode := some .local
  applyTransformation := true
  autoSyncMountedPrimitive := true
  modelMatrix := identity4
  target := none
  lastSyncedPosition := none
  isInteracting := true
  pickedGizmoId := some .xAxis
  startPos := ⟨0, 0⟩
  gizmoStartPos := zero3
  gizmoStartModelMatrix := identity4
  mountedPrimitiveStartModelMatrix := identity4
  rotateAccumulatedAngle := 0
  rotateStartEnuMatrix := zeroMatrix4
  originalTiltEventTypes := none
  originalRotateEventTypes := none
  originalZoomEventTypes := none
  controller := controllerW
  hover := none
  helperVisible := []

/-- Identity stand-in for the rotate branch in concrete examples (the
theorems quantify over the branch; examples only exercise other modes). -/
def rotIdQ : GizmoState ℚ → GizmoPart → MotionEvent ℚ → GizmoState ℚ := fun s _ _ => s

/-- C1 (amended): for every scale-mode pointer-move step while a handle is
held, if the display transform has decomposed scale exactly (1,1,1) before
the step then it still has it afterwards for Primitive- and Entity-mounted
targets (the step rebuilds the display only from a column-normalized rotation
plus a translation, or leaves it untouched), and for Node-mounted targets
whose stored visual-offset rotation is the identity; the square-root side
conditions say the environment's `Math.sqrt` is exact on the rebuilt columns'
norms (scale is stated in squared form to stay in exact arithmetic). -/
theorem scale_mode_display_scale_invariant (env : Env ℚ)
    (rot : GizmoState ℚ → GizmoPart → MotionEvent ℚ → GizmoState ℚ)
    (s : GizmoState ℚ) (move : MotionEvent ℚ) (p : GizmoPart)
    (hp : s.pickedGizmoId = some p)
    (hmode : s.mode = some .scale)
    (hpre : decomposedScaleSq s.modelMatrix = (⟨1, 1, 1⟩ : Cartesian3 ℚ))
    (hok : scaleStepRebuildOkB env s p (sub2 move.endPosition s.startPos) = true) :
    decomposedScaleSq ((mouseMove env opsQ rot s move).modelMatrix) =
      (⟨1, 1, 1⟩ : Cartesian3 ℚ) := by
  unfold mouseMove
  rcases hen : s.enabled with _ | _
  · simp only [Bool.not_false, if_true]
    exact hpre
  · simp only [Bool.not_true, Bool.false_eq_true, if_false, hp]
    rcases hz : (opsQ.jsEq (sub2 move.endPosition s.startPos).x 0 &&
        opsQ.jsEq (sub2 move.endPosition s.startPos).y 0) with _ | _
    · simp only [hmode]
      exact scaleStep_preserves_scaleSq env s p (sub2 move.endPosition s.startPos) hpre hok
    · exact hpre

/-- Node local matrix whose world rotation has unit but non-orthogonal
columns (3/5,4/5,0), (4/5,3/5,0), (0,0,1): a shear after column
normalization. -/
def shearNodeMatrix : Matrix4 ℚ :=
  ⟨3/5, 4/5, 0, 0, 4/5, 3/5, 0, 0, 0, 0, 1, 0, 0, 0, 0, 1⟩

/-- Rational rotation about z (cos 3/5, sin 4/5), used as a stored visual
offset. -/
def vOffsetMatrix : Matrix4 ℚ :=
  ⟨3/5, 4/5, 0, 0, -(4/5), 3/5, 0, 0, 0, 0, 1, 0, 0, 0, 0, 1⟩

/-- Node target combining the sheared world matrix with the non-identity
visual offset, under an otherwise trivial parent chain. -/
def nodeDataC1 : NodeData ℚ where
  wrapperMatrix := identity4
  nodeMatrix := shearNodeMatrix
  transformToRoot := identity4
  componentsTransform := identity4
  axisCorrection := identity4
  modelMatrix := identity4
  modelScale := 1
  visualOffset := vOffsetMatrix
  nodeStartMatrix := none
  nodeRotateStartMatrix := none
  gizmoRotateStartMatrix := none
  rotateAccumulatedAngleCache := none

/-- Scale-mode drag state mounted on the sheared node. -/
def stateC1 : GizmoState ℚ := { baseStateQ with target := some (.node nodeDataC1) }

/-- Mouse move perpendicular to the screen-projected x axis (scale factor 1). -/
def moveC1 : MotionEvent ℚ := ⟨⟨0, 0⟩, ⟨0, 5⟩⟩

/-- C1 counterexample: a scale-mode pointer-move step on a Node-mounted
target whose world rotation carries shear and whose visual offset is a
non-identity rotation starts from a display transform with decomposed scale
(1,1,1) and ends with a display transform whose decomposed scale is not
(1,1,1) — the rebuilt rotation is the column-normalized world rotation
composed with the visual offset, and that composition does not preserve unit
column norms. -/
theorem scale_mode_display_scale_counterexample :
    decomposedScaleSq stateC1.modelMatrix = (⟨1, 1, 1⟩ : Cartesian3 ℚ) ∧
    stateC1.mode = some GizmoMode.scale ∧
    stateC1.pickedGizmoId = some GizmoPart.xAxis ∧
    stateC1.enabled = true ∧
    decomposedScaleSq ((mouseMove envW opsQ rotIdQ stateC1 moveC1).modelMatrix) ≠
      (⟨1, 1, 1⟩ : Cartesian3 ℚ) :=
  ⟨by decide, rfl, rfl, rfl, by decide⟩

/-- Primitive-mounted scale-mode drag state for the C1 witness. -/
def stateC1w : GizmoState ℚ := { baseStateQ with target := some (.primitive identity4) }

/-- Mouse move of 10 pixels along the screen-projected x axis (scale factor
2). -/
def moveC1w : MotionEvent ℚ := ⟨⟨0, 0⟩, ⟨10, 0⟩⟩

/-- C1 witness: the amended invariant applied to a concrete primitive-target
scale drag with factor 2, all hypotheses discharged by evaluation. -/
theorem scale_mode_display_scale_invariant_witness :
    stateC1w.pickedGizmoId = some GizmoPart.xAxis ∧
    stateC1w.mode = some GizmoMode.scale ∧
    decomposedScaleSq stateC1w.modelMatrix = (⟨1, 1, 1⟩ : Cartesian3 ℚ) ∧
    scaleStepRebuildOkB envW stateC1w GizmoPart.xAxis
      (sub2 moveC1w.endPosition stateC1w.startPos) = true ∧
    decomposedScaleSq ((mouseMove envW opsQ rotIdQ stateC1w moveC1w).modelMatrix) =
      (⟨1, 1, 1⟩ : Cartesian3 ℚ) :=
  ⟨rfl, rfl, by decide, by decide,
    scale_mode_display_scale_invariant envW rotIdQ stateC1w moveC1w GizmoPart.xAxis rfl rfl
      (by decide) (by decide)⟩

end CTC

namespace CTC

/-- C2: in Surface-frame translate dragging anchored at a drag-start position
with geodetic coordinates (lon0, lat0, h0), the geodetic coordinates of the
computed result position (the cartographic value the branch converts back to
Cartesian and re-frames) satisfy the axis constraints: the z axis resets
longitude and latitude to their drag-start values, the x axis holds latitude
and height, the y axis holds longitude and height, the xy plane holds height,
the xz plane holds latitude, and the yz plane holds longitude. -/
theorem surface_translate_constraint_components (env : Env ℚ) (s : GizmoState ℚ)
    (p : GizmoPart) (d : Cartesian2 ℚ) (lon0 lat0 h0 : ℚ)
    (hstart : env.cartoFromCartesian s.gizmoStartPos = ⟨lon0, lat0, h0⟩) :
    (p = .zAxis → (surfaceResultCarto env s p d).longitude = lon0 ∧
      (surfaceResultCarto env s p d).latitude = lat0) ∧
    (p = .xAxis → (surfaceResultCarto env s p d).latitude = lat0 ∧
      (surfaceResultCarto env s p d).height = h0) ∧
    (p = .yAxis → (surfaceResultCarto env s p d).longitude = lon0 ∧
      (surfaceResultCarto env s p d).height = h0) ∧
    (p = .xyPlane → (surfaceResultCarto env s p d).height = h0) ∧
    (p = .xzPlane → (surfaceResultCarto env s p d).latitude = lat0) ∧
    (p = .yzPlane → (surfaceResultCarto env s p d).longitude = lon0) := by
  cases p <;>
    simp [surfaceResultCarto, surfaceTranslateConstraint, hstart]

/-- Environment for the C2 witness: geodetic conversion sending the origin to
(lon 10, lat 20, height 100). -/
def envC2 : Env ℚ :=
  { envW with cartoFromCartesian := fun v => ⟨v.x + 10, v.y + 20, v.z + 100⟩ }

/-- C2 witness: dragging the z-axis handle in Surface frame from geodetic
(10, 20, 100) yields a result whose longitude and latitude are exactly the
drag-start values. -/
theorem surface_translate_constraint_components_witness :
    (surfaceResultCarto envC2 baseStateQ GizmoPart.zAxis ⟨0, 5⟩).longitude = 10 ∧
    (surfaceResultCarto envC2 baseStateQ GizmoPart.zAxis ⟨0, 5⟩).latitude = 20 :=
  (surface_translate_constraint_components envC2 baseStateQ GizmoPart.zAxis ⟨0, 5⟩
    10 20 100 (by decide)).1 rfl

/-- C4: mounting a Primitive with transform `T` stores the object as the
mounted target and sets the display transform to the column-normalized
rotation of `T` plus `T`'s translation; an immediate force-sync sets the
display transform to the raw `T` (the scale reappears in the matrix itself),
whose decomposed translation and column-normalized rotation still equal the
mount-time scale-stripped values — the round-trip property the spec states in
decomposed form. -/
theorem mount_forceSync_roundTrip (env : Env ℚ) (s : GizmoState ℚ) (T : Matrix4 ℚ) :
    (mountToPrimitive env true s T).target = some (.primitive T) ∧
    (mountToPrimitive env true s T).modelMatrix =
      fromRotationTranslation (stripScaleRotation env.msqrt T) (getTranslation T) ∧
    (forceSyncFromMountedPrimitive env true (mountToPrimitive env true s T)).target =
      some (.primitive T) ∧
    (forceSyncFromMountedPrimitive env true (mountToPrimitive env true s T)).modelMatrix = T ∧
    getTranslation
        ((forceSyncFromMountedPrimitive env true (mountToPrimitive env true s T)).modelMatrix) =
      getTranslation T ∧
    stripScaleRotation env.msqrt
        ((forceSyncFromMountedPrimitive env true (mountToPrimitive env true s T)).modelMatrix) =
      stripScaleRotation env.msqrt T :=
  ⟨rfl, rfl, rfl, rfl, rfl, rfl⟩

/-- C7 (amended): the scaler returns 1 when the clamped on-screen diameter of
a unit sphere at the gizmo position is at least the gizmo's pixel length, and
`length × metersPerPixel / 2` otherwise; the returned factor is at least 1
whenever the larger drawing-buffer dimension is at least the gizmo's pixel
length — but not in general: when the drawing buffer is smaller than the
gizmo's pixel length the clamp can force the shrinking branch with an
arbitrarily small meters-per-pixel, producing a factor below 1. -/
theorem minimum_size_scale_formula (w h mpp glen : ℚ) (hm : 0 < mpp) :
    (glen ≤ min (1 / mpp * 2 * 1) (max w h) →
      getScaleForMinimumSize w h mpp glen = 1) ∧
    (min (1 / mpp * 2 * 1) (max w h) < glen →
      getScaleForMinimumSize w h mpp glen = glen * mpp / (2 * 1)) ∧
    (glen ≤ max w h → 1 ≤ getScaleForMinimumSize w h mpp glen) := by
  unfold getScaleForMinimumSize
  refine ⟨fun hle => ?_, fun hlt => ?_, fun hlen => ?_⟩
  · rw [if_neg (not_lt.mpr hle)]
  · rw [if_pos hlt]
  · by_cases hd : min (1 / mpp * 2 * 1) (max w h) < glen
    · rw [if_pos hd]
      have h2 : 1 / mpp * 2 * 1 < glen := by
        rcases min_lt_iff.mp hd with ha | hb
        · exact ha
        · linarith
      have h3 : 2 < glen * mpp := by
        have h4 : 1 / mpp * 2 * 1 = 2 / mpp := by ring
        rw [h4] at h2
        exact (div_lt_iff₀ hm).mp h2
      rw [le_div_iff₀ (by norm_num : (0 : ℚ) < 2 * 1)]
      linarith
    · rw [if_neg hd]

/-- C7 counterexample: with a 200×150 drawing buffer, meters-per-pixel 1/200
and the gizmo's pixel length 250, the clamp binds (diameter 200 < 250) and
the scaler returns 5/8 < 1 — so the returned factor is not always at least
1. -/
theorem minimum_size_scale_counterexample :
    getScaleForMinimumSize 200 150 (1 / 200) 250 < 1 := by decide

/-- C7 witness: the amended bound applied at a 300×200 buffer,
meters-per-pixel 1/10 and length 250 (the buffer accommodates the gizmo, so
the factor is at least 1). -/
theorem minimum_size_scale_formula_witness :
    1 ≤ getScaleForMinimumSize 300 200 (1 / 10) 250 :=
  (minimum_size_scale_formula 300 200 (1 / 10) 250 (by decide)).2.2 (by decide)

end CTC

namespace CTC

/-- C8: `resolveMountedEntity` returns the stored reference unchanged when it
is still in the collection or when there is no locator; otherwise it looks up
by locator id first, then by matching every locator custom property, updating
the stored reference on a hit; when nothing matches, the stale reference is
returned unchanged.  The function is total: no exception. -/
theorem resolve_mounted_entity_cases (entities : List CEntity)
    (mounted : MountedEntityRef) :
    (collectionContains entities mounted.entity = true →
      resolveMountedEntity true entities mounted = (mounted, mounted.entity)) ∧
    (mounted.locator = none →
      resolveMountedEntity true entities mounted = (mounted, mounted.entity)) ∧
    (∀ loc i found, collectionContains entities mounted.entity = false →
      mounted.locator = some loc → loc.entityId = some i →
      collectionGetById entities i = some found →
      resolveMountedEntity true entities mounted = ({ mounted with entity := found }, found)) ∧
    (∀ loc props found, collectionContains entities mounted.entity = false →
      mounted.locator = some loc →
      (match loc.entityId with
        | some i => collectionGetById entities i
        | none => none) = none →
      loc.customProperties = some props →
      entities.find? (matchesAllCustomProperties props) = some found →
      resolveMountedEntity true entities mounted = ({ mounted with entity := found }, found)) ∧
    (∀ loc, collectionContains entities mounted.entity = false →
      mounted.locator = some loc →
      (match loc.entityId with
        | some i => collectionGetById entities i
        | none => none) = none →
      (match loc.customProperties with
        | some props => entities.find? (matchesAllCustomProperties props)
        | none => none) = none →
      resolveMountedEntity true entities mounted = (mounted, mounted.entity)) := by
  refine ⟨fun hc => ?_, fun hl => ?_, fun loc i found hc hl hi hg => ?_,
    fun loc props found hc hl hnid hp hf => ?_, fun loc hc hl hnid hnp => ?_⟩
  · simp [resolveMountedEntity, hc]
  · simp [resolveMountedEntity, hl]
  · simp [resolveMountedEntity, hc, hl, hi, hg]
  · rcases hie : loc.entityId with _ | i
    · simp [resolveMountedEntity, hc, hl, hie, hp, hf]
    · rw [hie] at hnid
      have hnid2 : collectionGetById entities i = none := hnid
      simp [resolveMountedEntity, hc, hl, hie, hnid2, hp, hf]
  · rcases hie : loc.entityId with _ | i
    · rcases hpe : loc.customProperties with _ | props
      · simp [resolveMountedEntity, hc, hl, hie, hpe]
      · rw [hpe] at hnp
        have hnp2 : entities.find? (matchesAllCustomProperties props) = none := hnp
        simp [resolveMountedEntity, hc, hl, hie, hpe, hnp2]
    · rw [hie] at hnid
      have hnid2 : collectionGetById entities i = none := hnid
      rcases hpe : loc.customProperties with _ | props
      · simp [resolveMountedEntity, hc, hl, hie, hnid2, hpe]
      · rw [hpe] at hnp
        have hnp2 : entities.find? (matchesAllCustomProperties props) = none := hnp
        simp [resolveMountedEntity, hc, hl, hie, hnid2, hpe, hnp2]

/-- The stale entity of the C8 witness: object 1 with id "unit-42". -/
def staleEntityW : CEntity := ⟨1, some ("unit-42"), []⟩

/-- The freshly recreated entity of the C8 witness: a different object with
the same id "unit-42". -/
def freshEntityW : CEntity := ⟨2, some ("unit-42"), []⟩

/-- Mounted reference of the C8 witness: the stale entity plus an id
locator. -/
def mountedRefW : MountedEntityRef :=
  ⟨staleEntityW, some ⟨some ("unit-42"), none⟩⟩

/-- C8 witness: after the mounted entity is destroyed and an entity with the
same id "unit-42" is recreated, resolution attaches to the new instance and
updates the stored reference. -/
theorem resolve_mounted_entity_cases_witness :
    resolveMountedEntity true [freshEntityW] mountedRefW =
      ({ mountedRefW with entity := freshEntityW }, freshEntityW) :=
  (resolve_mounted_entity_cases [freshEntityW] mountedRefW).2.2.1
    ⟨some ("unit-42"), none⟩ ("unit-42") freshEntityW (by decide) rfl rfl (by decide)

end CTC

namespace CTC

/-- C9: after every `LEFT_UP` event all five camera-controller enable flags
are true, and any saved original tilt/rotate/zoom event-type bindings are
restored and their saved copies cleared — for every state, hence regardless
of the gizmo's enabled flag, because `leftUp` has no enabled gate; by
contrast the pointer-move, pointer-down and click handlers are no-ops
whenever the gizmo is disabled, so disabling the gizmo mid-drag cannot leave
the camera controls permanently disabled. -/
theorem pointer_up_restores_camera (s : GizmoState ℚ) :
    ((leftUp s).controller.enableRotate = true ∧
     (leftUp s).controller.enableTranslate = true ∧
     (leftUp s).controller.enableZoom = true ∧
     (leftUp s).controller.enableTilt = true ∧
     (leftUp s).controller.enableLook = true) ∧
    ((leftUp s).originalTiltEventTypes = none ∧
     (leftUp s).originalRotateEventTypes = none ∧
     (leftUp s).originalZoomEventTypes = none) ∧
    ((leftUp s).controller.tiltEventTypes =
        s.originalTiltEventTypes.getD s.controller.tiltEventTypes ∧
     (leftUp s).controller.rotateEventTypes =
        s.originalRotateEventTypes.getD s.controller.rotateEventTypes ∧
     (leftUp s).controller.zoomEventTypes =
        s.originalZoomEventTypes.getD s.controller.zoomEventTypes) ∧
    (s.enabled = false →
      (∀ env rot move, mouseMove env opsQ rot s move = s) ∧
      (∀ env pos, leftDown env s pos = s) ∧
      (∀ dispatch env pos, leftClick dispatch env s pos = s)) := by
  refine ⟨?_, ?_, ?_, fun hen => ⟨fun env rot move => ?_, fun env pos => ?_,
    fun dispatch env pos => ?_⟩⟩
  · by_cases hpk : s.pickedGizmoId.isSome <;> simp [leftUp, hpk]
  · by_cases hpk : s.pickedGizmoId.isSome <;> simp [leftUp, hpk]
  · by_cases hpk : s.pickedGizmoId.isSome <;> simp [leftUp, hpk]
  · simp [mouseMove, hen]
  · simp [leftDown, hen]
  · simp [leftClick, hen]

/-- Mid-drag state with the gizmo disabled, camera flags all off, bindings
cleared, and saved originals present — the configuration `setEnabled(false)`
during a drag produces. -/
def stateC9 : GizmoState ℚ :=
  { baseStateQ with
    enabled := false,
    controller :=
      { enableRotate := false, enableTranslate := false, enableZoom := false,
        enableTilt := false, enableLook := false,
        tiltEventTypes := [], rotateEventTypes := [], zoomEventTypes := [] },
    originalTiltEventTypes := some [1],
    originalRotateEventTypes := some [2],
    originalZoomEventTypes := some [3] }

/-- C9 witness: pointer-up on the disabled mid-drag state re-enables the
camera and restores the saved tilt binding, while a pointer-move on that
state is a no-op. -/
theorem pointer_up_restores_camera_witness :
    (leftUp stateC9).controller.enableZoom = true ∧
    (leftUp stateC9).controller.tiltEventTypes = [1] ∧
    (leftUp stateC9).originalTiltEventTypes = none ∧
    mouseMove envW opsQ rotIdQ stateC9 moveC1 = stateC9 :=
  ⟨(pointer_up_restores_camera stateC9).1.2.2.1,
   ((pointer_up_restores_camera stateC9).2.2.1.1).trans rfl,
   (pointer_up_restores_camera stateC9).2.1.1,
   ((pointer_up_restores_camera stateC9).2.2.2 rfl).1 envW rotIdQ moveC1⟩

end CTC

namespace CTC

/-- The scale branch never reads the active coordinate mode: running the
branch on a state with any coordinate mode gives the same result up to that
field. -/
theorem scaleStep_coordinateMode_update (env : Env ℚ) (s : GizmoState ℚ)
    (p : GizmoPart) (d : Cartesian2 ℚ) (c : Option CoordinateMode) :
    scaleStep env opsQ { s with coordinateMode := c } p d =
      { scaleStep env opsQ s p d with coordinateMode := c } := by
  obtain ⟨en, mo, cm, app, asy, mm, tg, ls, ii, pk, sp, gsp, gsm, msm, raa, rse,
    oti, ore, ozo, ctl, hov, hel⟩ := s
  unfold scaleStep scaleVecFor
  dsimp only
  rcases hv : (if isPlanePart p then getPlaneScale p env gsp gsm d
      else getScale p env gsp gsm d) with _ | sc
  · rfl
  · rcases app with _ | _
    · rfl
    · rcases tg with _ | t
      · rfl
      · rcases t with m | e | n
        · rfl
        · obtain ⟨ew, epos, ebd, eod⟩ := e
          unfold scaleApplyEntity
          dsimp only
          rcases ebd with _ | dims
          · rfl
          · rfl
        · rfl

/-- C6: for an axis-handle scale drag with both screen projections available,
`getScale` returns exactly the vector of the claim — the component at the
picked axis is the dot product of the screen-projected axis direction with
the mouse delta, divided by that direction's length, divided by 10, plus 1,
and the other two components are exactly 1 — with the axis direction taken
from the drag-start display transform; moreover the whole scale branch is
independent of the active coordinate mode (it has no Surface-frame path). -/
theorem axis_scale_factor_formula (env : Env ℚ) (pos : Cartesian3 ℚ)
    (M : Matrix4 ℚ) (d : Cartesian2 ℚ) (p : GizmoPart) (u : Cartesian3 ℚ)
    (o e : Cartesian2 ℚ)
    (hu : axisUnitFor p = some u)
    (ho : env.w2w pos = some o)
    (he : env.w2w (add3 pos (multiplyByPointAsVector M u)) = some e) :
    getScale p env pos M d =
      some (axisScaleFromSpec p (scaleFactorFromSpec env.msqrt o e d)) ∧
    (∀ (s : GizmoState ℚ) (pp : GizmoPart) (dd : Cartesian2 ℚ)
        (c : Option CoordinateMode),
      scaleStep env opsQ { s with coordinateMode := c } pp dd =
        { scaleStep env opsQ s pp dd with coordinateMode := c }) := by
  refine ⟨?_, fun s pp dd c => scaleStep_coordinateMode_update env s pp dd c⟩
  cases p <;>
    simp_all [getScale, axisUnitFor, axisScaleFromSpec, scaleFactorFromSpec,
      magnitude2, Nat.cast_ofNat]

/-- C6 witness: the formula applied at the origin with the identity
drag-start transform and a 10-pixel mouse move along the screen x axis. -/
theorem axis_scale_factor_formula_witness :
    getScale GizmoPart.xAxis envW zero3 identity4 ⟨10, 0⟩ =
      some (axisScaleFromSpec GizmoPart.xAxis
        (scaleFactorFromSpec envW.msqrt ⟨0, 0⟩ ⟨1, 0⟩ ⟨10, 0⟩)) ∧
    getScale GizmoPart.xAxis envW zero3 identity4 ⟨10, 0⟩ =
      some (⟨2, 1, 1⟩ : Cartesian3 ℚ) :=
  ⟨(axis_scale_factor_formula envW zero3 identity4 ⟨10, 0⟩ GizmoPart.xAxis unitX
      ⟨0, 0⟩ ⟨1, 0⟩ rfl (by decide) (by decide)).1,
   by decide⟩

end CTC

namespace CTC

/-- C10: for a plane handle, `getPlaneScale` returns nothing exactly when the
anchor or either axis endpoint has no screen projection; otherwise it returns
the vector whose two in-plane components both equal the single factor
obtained by projecting the mouse delta onto the normalized sum of the two
normalized screen axis directions, divided by 10, plus 1, with the remaining
component exactly 1 — plane-constrained scaling is uniform across the
plane. -/
theorem plane_scale_uniform_formula (env : Env ℚ) (pos : Cartesian3 ℚ)
    (M : Matrix4 ℚ) (d : Cartesian2 ℚ) (p : GizmoPart) (a1 a2 : Cartesian3 ℚ)
    (hp : planeAxesFor p = some (a1, a2)) :
    (getPlaneScale p env pos M d = none ↔
      (env.w2w pos = none ∨
       env.w2w (add3 pos (multiplyByPointAsVector M a1)) = none ∨
       env.w2w (add3 pos (multiplyByPointAsVector M a2)) = none)) ∧
    (∀ o e1 e2, env.w2w pos = some o →
      env.w2w (add3 pos (multiplyByPointAsVector M a1)) = some e1 →
      env.w2w (add3 pos (multiplyByPointAsVector M a2)) = some e2 →
      getPlaneScale p env pos M d =
        some (planeScaleFromSpec p (planeFactorFromSpec env.msqrt o e1 e2 d))) := by
  cases p
  case xAxis => exact absurd hp (by simp [planeAxesFor])
  case yAxis => exact absurd hp (by simp [planeAxesFor])
  case zAxis => exact absurd hp (by simp [planeAxesFor])
  case xyPlane =>
    simp only [planeAxesFor, Option.some.injEq, Prod.mk.injEq] at hp
    obtain ⟨ha1, ha2⟩ := hp
    subst ha1
    subst ha2
    rcases h0 : env.w2w pos with _ | o <;>
      rcases hA : env.w2w (add3 pos (multiplyByPointAsVector M unitX)) with _ | e1 <;>
        rcases hB : env.w2w (add3 pos (multiplyByPointAsVector M unitY)) with _ | e2 <;>
          simp_all [getPlaneScale, planeAxesFor, planeScaleFromSpec, planeFactorFromSpec,
            magnitude2, Nat.cast_ofNat]
  case xzPlane =>
    simp only [planeAxesFor, Option.some.injEq, Prod.mk.injEq] at hp
    obtain ⟨ha1, ha2⟩ := hp
    subst ha1
    subst ha2
    rcases h0 : env.w2w pos with _ | o <;>
      rcases hA : env.w2w (add3 pos (multiplyByPointAsVector M unitX)) with _ | e1 <;>
        rcases hB : env.w2w (add3 pos (multiplyByPointAsVector M unitZ)) with _ | e2 <;>
          simp_all [getPlaneScale, planeAxesFor, planeScaleFromSpec, planeFactorFromSpec,
            magnitude2, Nat.cast_ofNat]
  case yzPlane =>
    simp only [planeAxesFor, Option.some.injEq, Prod.mk.injEq] at hp
    obtain ⟨ha1, ha2⟩ := hp
    subst ha1
    subst ha2
    rcases h0 : env.w2w pos with _ | o <;>
      rcases hA : env.w2w (add3 pos (multiplyByPointAsVector M unitY)) with _ | e1 <;>
        rcases hB : env.w2w (add3 pos (multiplyByPointAsVector M unitZ)) with _ | e2 <;>
          simp_all [getPlaneScale, planeAxesFor, planeScaleFromSpec, planeFactorFromSpec,
            magnitude2, Nat.cast_ofNat]

/-- Drag-start transform for the C10 witness: its x and y columns project to
the unit screen directions (3/5, 4/5) and (3/5, −4/5), whose normalized sum
(6/5, 0) has a rational length. -/
def matrixC10 : Matrix4 ℚ :=
  ⟨3/5, 4/5, 0, 0, 3/5, -(4/5), 0, 0, 0, 0, 1, 0, 0, 0, 0, 1⟩

/-- C10 witness: the xy-plane formula at the origin with a 10-pixel mouse
move along screen x; the resulting plane scale is the uniform (2, 2, 1). -/
theorem plane_scale_uniform_formula_witness :
    getPlaneScale GizmoPart.xyPlane envW zero3 matrixC10 ⟨10, 0⟩ =
      some (planeScaleFromSpec GizmoPart.xyPlane
        (planeFactorFromSpec envW.msqrt ⟨0, 0⟩ ⟨3/5, 4/5⟩ ⟨3/5, -(4/5)⟩ ⟨10, 0⟩)) ∧
    getPlaneScale GizmoPart.xyPlane envW zero3 matrixC10 ⟨10, 0⟩ =
      some (⟨2, 2, 1⟩ : Cartesian3 ℚ) :=
  ⟨(plane_scale_uniform_formula envW zero3 matrixC10 ⟨10, 0⟩ GizmoPart.xyPlane
      unitX unitY rfl).2 ⟨0, 0⟩ ⟨3/5, 4/5⟩ ⟨3/5, -(4/5)⟩ (by decide) (by decide) (by decide),
   by decide⟩

end CTC

namespace CTC

/-- Whether the translate branch the active coordinate mode selects computes
a result matrix with NaN among its three translation components — the exact
condition of the handler's guards. -/
def translateResultNaN (env : Env JsNum) (s : GizmoState JsNum) (p : GizmoPart)
    (move : MotionEvent JsNum) : Bool :=
  match s.coordinateMode with
  | some .local =>
    hasNaNTranslation opsJ (localTranslateResult env s p (sub2 move.endPosition s.startPos))
  | some .surface =>
    hasNaNTranslation opsJ (surfaceTranslateResult env s p (sub2 move.endPosition s.startPos))
  | none => false

/-- C3: during a translate drag (Local or Surface frame), if the computed
result matrix contains NaN in any translation component, the pointer-move
handler returns before mutating anything — the entire state (display
transform, target, session fields) is unchanged — and a subsequent
pointer-move proceeds from the untouched state exactly as if the aborted
event had never been delivered.  The handler is a total function, so no
exception propagates. -/
theorem translate_nan_guard (env : Env JsNum)
    (rot : GizmoState JsNum → GizmoPart → MotionEvent JsNum → GizmoState JsNum)
    (s : GizmoState JsNum) (move : MotionEvent JsNum) (p : GizmoPart)
    (hp : s.pickedGizmoId = some p)
    (hmode : s.mode = some .translate)
    (hnan : translateResultNaN env s p move = true) :
    mouseMove env opsJ rot s move = s ∧
    (∀ (env2 : Env JsNum) rot2 move2,
      mouseMove env2 opsJ rot2 (mouseMove env opsJ rot s move) move2 =
        mouseMove env2 opsJ rot2 s move2) := by
  have hmain : mouseMove env opsJ rot s move = s := by
    unfold mouseMove
    rcases hen : s.enabled with _ | _
    · simp
    · simp only [Bool.not_true, Bool.false_eq_true, if_false, hp]
      rcases hz : (opsJ.jsEq (sub2 move.endPosition s.startPos).x 0 &&
          opsJ.jsEq (sub2 move.endPosition s.startPos).y 0) with _ | _
      · simp only [hmode]
        unfold translateStep
        unfold translateResultNaN at hnan
        rcases hcm : s.coordinateMode with _ | c
        · rfl
        · rw [hcm] at hnan
          rcases c with _ | _
          · have hnan2 : hasNaNTranslation opsJ
                (localTranslateResult env s p (sub2 move.endPosition s.startPos)) = true := hnan
            unfold translateLocalStep
            simp [hnan2]
          · have hnan2 : hasNaNTranslation opsJ
                (surfaceTranslateResult env s p (sub2 move.endPosition s.startPos)) = true := hnan
            unfold translateSurfaceStep
            simp [hnan2]
      · rfl
  exact ⟨hmain, fun env2 rot2 move2 => by rw [hmain]⟩

/-- C5: a pointer-move arriving while a handle is held with the mouse at the
drag-start screen position (zero delta in both coordinates) returns before
any mode branch runs: the whole state — display transform, target transform,
accumulated rotation angle, and every other session field — is unchanged. -/
theorem zero_delta_short_circuit (env : Env JsNum)
    (rot : GizmoState JsNum → GizmoPart → MotionEvent JsNum → GizmoState JsNum)
    (s : GizmoState JsNum) (move : MotionEvent JsNum) (p : GizmoPart) (a b : ℚ)
    (hen : s.enabled = true)
    (hp : s.pickedGizmoId = some p)
    (hx : s.startPos.x = JsNum.num a)
    (hy : s.startPos.y = JsNum.num b)
    (hmove : move.endPosition = s.startPos) :
    mouseMove env opsJ rot s move = s := by
  unfold mouseMove
  simp only [hen, Bool.not_true, Bool.false_eq_true, if_false, hp]
  have hsub : ∀ q : ℚ, JsNum.num q - JsNum.num q = (0 : JsNum) := fun q => by
    show JsNum.jsub (JsNum.num q) (JsNum.num q) = (0 : JsNum)
    simp only [JsNum.jsub, sub_self]
    rfl
  have hz : (opsJ.jsEq (sub2 move.endPosition s.startPos).x 0 &&
      opsJ.jsEq (sub2 move.endPosition s.startPos).y 0) = true := by
    rw [hmove]
    show (opsJ.jsEq (s.startPos.x - s.startPos.x) 0 &&
        opsJ.jsEq (s.startPos.y - s.startPos.y) 0) = true
    rw [hx, hy, hsub a, hsub b]
    rfl
  rw [hz]
  simp

end CTC

namespace CTC

/-- Concrete environment over JavaScript numbers: orthographic-style
projection, stub square root 1, unit pixel size. -/
def envJ : Env JsNum where
  w2w := fun v => some ⟨v.x, v.y⟩
  msqrt := fun _ => JsNum.num 1
  getPixelSize := fun _ _ _ _ => JsNum.num 1
  canvasWidth := JsNum.num 100
  canvasHeight := JsNum.num 100
  enuFrame := fun _ => identity4
  cartoFromCartesian := fun v => ⟨v.x, v.y, v.z⟩
  cartoToCartesian := fun c => ⟨c.longitude, c.latitude, c.height⟩
  pick := fun _ => none

/-- Identity stand-in for the rotate branch over JavaScript numbers. -/
def rotIdJ : GizmoState JsNum → GizmoPart → MotionEvent JsNum → GizmoState JsNum :=
  fun s _ _ => s

/-- Base concrete state over JavaScript numbers: enabled, translate mode,
Local frame, x-axis handle held from screen position (0,0). -/
def baseStateJ : GizmoState JsNum where
  enabled := true
  mode := some .translate
  coordinateMode := some .local
  applyTransformation := true
  autoSyncMountedPrimitive := true
  modelMatrix := identity4
  target := some (.primitive identity4)
  lastSyncedPosition := none
  isInteracting := true
  pickedGizmoId := some .xAxis
  startPos := ⟨JsNum.num 0, JsNum.num 0⟩
  gizmoStartPos := zero3
  gizmoStartModelMatrix := identity4
  mountedPrimitiveStartModelMatrix := identity4
  rotateAccumulatedAngle := JsNum.num 0
  rotateStartEnuMatrix := zeroMatrix4
  originalTiltEventTypes := none
  originalRotateEventTypes := none
  originalZoomEventTypes := none
  controller := controllerW
  hover := none
  helperVisible := []

/-- Drag-start display transform poisoned with NaN in its x translation — the
kind of value a degenerate projection produces. -/
def nanStartMatrix : Matrix4 JsNum := { identity4 with m12 := JsNum.nan }

/-- Local translate drag whose computed result matrix carries NaN. -/
def stateC3 : GizmoState JsNum := { baseStateJ with gizmoStartModelMatrix := nanStartMatrix }

/-- A one-pixel mouse move (nonzero delta, so the zero-delta guard does not
mask the NaN guard). -/
def moveC3 : MotionEvent JsNum := ⟨⟨JsNum.num 0, JsNum.num 0⟩, ⟨JsNum.num 1, JsNum.num 0⟩⟩

/-- C3 witness: the NaN guard applied to a concrete Local-frame drag whose
result matrix has a NaN x translation; the handler leaves the state
bit-identical and a following pointer-move behaves as if the aborted one had
never happened. -/
theorem translate_nan_guard_witness :
    translateResultNaN envJ stateC3 GizmoPart.xAxis moveC3 = true ∧
    mouseMove envJ opsJ rotIdJ stateC3 moveC3 = stateC3 ∧
    mouseMove envJ opsJ rotIdJ (mouseMove envJ opsJ rotIdJ stateC3 moveC3) moveC3 =
      mouseMove envJ opsJ rotIdJ stateC3 moveC3 :=
  ⟨by decide,
   (translate_nan_guard envJ rotIdJ stateC3 moveC3 GizmoPart.xAxis rfl rfl (by decide)).1,
   (translate_nan_guard envJ rotIdJ stateC3 moveC3 GizmoPart.xAxis rfl rfl (by decide)).2
     envJ rotIdJ moveC3⟩

/-- Pointer-move event whose end position equals the drag-start screen
position. -/
def moveC5 : MotionEvent JsNum := ⟨⟨JsNum.num 7, JsNum.num 8⟩, ⟨JsNum.num 0, JsNum.num 0⟩⟩

/-- C5 witness: the zero-delta short-circuit applied to a concrete held-handle
state; the handler returns the state unchanged. -/
theorem zero_delta_short_circuit_witness :
    mouseMove envJ opsJ rotIdJ baseStateJ moveC5 = baseStateJ :=
  zero_delta_short_circuit envJ rotIdJ baseStateJ moveC5 GizmoPart.xAxis 0 0
    rfl rfl rfl rfl rfl

end CTC
